import Mathlib

/-!
Shallow embedding of the mqtt-proto codec (MQTT 3.1.1 / 5.0 packet codec).

Wire bytes are modelled as `List Nat` with each element a byte value.
A `Shared` view is modelled by the list of bytes it currently ranges over:
the codec only ever narrows a view from the front (`drain` / `split_to`),
so the list is a faithful model of the view's range.  A writable view
(`Owned`) is modelled by its filled bytes plus the remaining unfilled
capacity.  Fallible operations return `Except`; operations that mutate a
`&mut Shared` in the source return the new view contents alongside the
result, or are paired with the untouched view on failure where the source
leaves the view unchanged.
-/

namespace Mqtt

/-- Decode-side errors (DecodeError in src/lib.rs; the Io variant and error
payloads that carry foreign types are modelled structurally). -/
inductive DecodeError where
  | connectReservedSet
  | connectZeroLengthIdWithExistingSession
  | incompletePacket
  | noTopics
  | publishDupAtMostOnce
  | remainingLengthTooHigh
  | stringNotUtf8
  | trailingGarbage
  | unrecognizedConnAckFlags (flags : Nat)
  | unrecognizedPacket (packetType flags remainingLength : Nat)
  | unrecognizedProtocolName (name : List Nat)
  | unrecognizedProtocolVersion (version : Nat)
  | unrecognizedQoS (qos : Nat)
  | zeroPacketIdentifier
  | duplicateProperty (identifier : String)
  | missingRequiredProperty (identifier : String)
  | unexpectedProperty
  | unrecognizedPropertyIdentifier (identifier : Nat)
  | invalidMaximumPacketSize (value : Nat)
  | unrecognizedAuthenticateReasonCode (code : Nat)
  | unrecognizedConnectReasonCode (code : Nat)
  | unrecognizedDisconnectReasonCode (code : Nat)
  | unrecognizedMaximumQoS (value : Nat)
  | unrecognizedPayloadFormatIndicator (value : Nat)
  | unrecognizedPubAckReasonCode (code : Nat)
  | unrecognizedPubCompReasonCode (code : Nat)
  | unrecognizedPubRecReasonCode (code : Nat)
  | unrecognizedPubRelReasonCode (code : Nat)
  | unrecognizedRequestProblemInformation (value : Nat)
  | unrecognizedRequestResponseInformation (value : Nat)
  | unrecognizedRetainAvailable (value : Nat)
  | unrecognizedRetainHandling (value : Nat)
  | unrecognizedSharedSubscriptionAvailable (value : Nat)
  | unrecognizedSubscribeReasonCode (code : Nat)
  | unrecognizedSubscriptionIdentifierAvailable (value : Nat)
  | unrecognizedUnsubscribeReasonCode (code : Nat)
  | unrecognizedWildcardSubscriptionAvailable (value : Nat)
  | subscriptionOptionsReservedSet
  deriving DecidableEq, Repr

/-- Encode-side errors (EncodeError in src/lib.rs; Duration payloads are
modelled as their whole-second values). -/
inductive EncodeError where
  | insufficientBuffer
  | keepAliveTooHigh (secs : Nat)
  | remainingLengthTooHigh (len : Nat)
  | stringTooLarge (len : Nat)
  | willTooLarge (len : Nat)
  | invalidMaximumPacketSize (value : Nat)
  | invalidMessageExpiryInterval (secs : Nat)
  | invalidReceiveMaximum (value : Nat)
  | invalidServerKeepAlive (secs : Nat)
  | invalidSessionExpiryInterval (secs : Nat)
  | invalidTopicAlias (value : Nat)
  | invalidWillDelayInterval (secs : Nat)
  deriving DecidableEq, Repr

/-- Big-endian bytes of a u16 value (u16::to_be_bytes). -/
def u16beBytes (n : Nat) : List Nat :=
  [n / 256 % 256, n % 256]

/-- Big-endian bytes of a u32 value (u32::to_be_bytes). -/
def u32beBytes (n : Nat) : List Nat :=
  [n / 2 ^ 24 % 256, n / 2 ^ 16 % 256, n / 2 ^ 8 % 256, n % 256]

/-- A packet identifier: a two-byte value that cannot be zero
(PacketIdentifier in src/lib.rs). The nonzero invariant is maintained by
construction through PacketIdentifier.new, as in the source. -/
structure PacketIdentifier where
  val : Nat
  deriving DecidableEq, Repr

/-- PacketIdentifier::new - zero is rejected. -/
def PacketIdentifier.new (raw : Nat) : Option PacketIdentifier :=
  match raw with
  | 0 => none
  | raw => some ⟨raw⟩

/-- Addition of a u16 onto a packet identifier (impl Add of u16 for
PacketIdentifier in src/lib.rs): wrapping add modulo 2^16, mapping the
wrapped value 0 to 1. -/
def PacketIdentifier.add (p : PacketIdentifier) (other : Nat) : PacketIdentifier :=
  match (p.val + other) % 2 ^ 16 with
  | 0 => ⟨1⟩
  | value => ⟨value⟩

/-- A byte-output sink: the ByteBuf trait of src/lib.rs, reduced to its one
required method try_put_slice. -/
structure ByteSink (σ : Type) where
  tryPutSlice : σ → List Nat → Except EncodeError σ

/-- ByteBuf::try_put_u8 (writes to_be_bytes of the byte, which is the byte
itself). -/
def ByteSink.tryPutU8 {σ : Type} (d : ByteSink σ) (s : σ) (n : Nat) : Except EncodeError σ :=
  d.tryPutSlice s [n]

/-- ByteBuf::try_put_u16_be. -/
def ByteSink.tryPutU16be {σ : Type} (d : ByteSink σ) (s : σ) (n : Nat) : Except EncodeError σ :=
  d.tryPutSlice s (u16beBytes n)

/-- ByteBuf::try_put_u32_be. -/
def ByteSink.tryPutU32be {σ : Type} (d : ByteSink σ) (s : σ) (n : Nat) : Except EncodeError σ :=
  d.tryPutSlice s (u32beBytes n)

/-- ByteBuf::try_put_packet_identifier. -/
def ByteSink.tryPutPacketIdentifier {σ : Type} (d : ByteSink σ) (s : σ)
    (packetIdentifier : PacketIdentifier) : Except EncodeError σ :=
  d.tryPutU16be s packetIdentifier.val

/-- ByteBuf::try_put_bytes - writes the full contents of a shared view. -/
def ByteSink.tryPutBytes {σ : Type} (d : ByteSink σ) (s : σ) (src : List Nat) :
    Except EncodeError σ :=
  d.tryPutSlice s src

/-- A writable view (Owned in src/buffer.rs), reduced to the data the codec
observes: the bytes of the filled region and the length of the unfilled
region. -/
structure Owned where
  filled : List Nat
  unfilled : Nat
  deriving DecidableEq, Repr

/-- The ByteBuf impl for Owned (src/lib.rs): try_put_slice fails with
InsufficientBuffer when the unfilled region is shorter than the slice,
otherwise copies the slice and advances the filled cursor. -/
def ownedSink : ByteSink Owned :=
  ⟨fun o src =>
    if src.length ≤ o.unfilled then
      .ok ⟨o.filled ++ src, o.unfilled - src.length⟩
    else
      .error .insufficientBuffer⟩

/-- The ByteCounter sink (src/lib.rs): accumulates byte counts only. -/
def counterSink : ByteSink Nat :=
  ⟨fun c src => .ok (c + src.length)⟩

/-- Shared::try_get_u8 (src/buffer.rs). Returns the result together with
the view contents after the call: on failure the view is unchanged. -/
def tryGetU8 (src : List Nat) : Except DecodeError Nat × List Nat :=
  match src with
  | [] => (.error .incompletePacket, src)
  | b :: rest => (.ok b, rest)

/-- Shared::try_get_u16_be (src/buffer.rs). -/
def tryGetU16be (src : List Nat) : Except DecodeError Nat × List Nat :=
  match src with
  | b1 :: b2 :: rest => (.ok (b1 * 256 + b2), rest)
  | _ => (.error .incompletePacket, src)

/-- Shared::try_get_u32_be (src/buffer.rs). -/
def tryGetU32be (src : List Nat) : Except DecodeError Nat × List Nat :=
  match src with
  | b1 :: b2 :: b3 :: b4 :: rest =>
    (.ok (b1 * 2 ^ 24 + b2 * 2 ^ 16 + b3 * 2 ^ 8 + b4), rest)
  | _ => (.error .incompletePacket, src)

/-- Shared::try_get_packet_identifier (src/buffer.rs): reads a big-endian
u16 and rejects the value zero. -/
def tryGetPacketIdentifier (src : List Nat) :
    Except DecodeError PacketIdentifier × List Nat :=
  match tryGetU16be src with
  | (.error e, rest) => (.error e, rest)
  | (.ok n, rest) =>
    match PacketIdentifier.new n with
    | none => (.error .zeroPacketIdentifier, rest)
    | some pid => (.ok pid, rest)

/-- Decode of the MQTT variable-length "remaining length" integer
(decode_remaining_length in src/lib.rs), as a loop over the input bytes.
Returns none when the input runs out mid-sequence.  The continuation bit is
the high bit of each byte and each byte contributes its low seven bits. -/
def decodeRemainingLengthGo : List Nat → Nat → Nat → Except DecodeError (Option Nat × List Nat)
  | [], _, _ => .ok (none, [])
  | encodedByte :: rest, result, numBytesRead =>
    let result := result ||| ((encodedByte &&& 0x7F) <<< (numBytesRead * 7))
    let numBytesRead := numBytesRead + 1
    if encodedByte &&& 0x80 = 0 then
      .ok (some result, rest)
    else if numBytesRead = 4 then
      .error .remainingLengthTooHigh
    else
      decodeRemainingLengthGo rest result numBytesRead

/-- decode_remaining_length entry point. -/
def decodeRemainingLength (src : List Nat) : Except DecodeError (Option Nat × List Nat) :=
  decodeRemainingLengthGo src 0 0

/-- Loop body of encode_remaining_length (src/lib.rs).  The source counts
bytes written upward and errors when a fifth byte would be needed
(num_bytes_written == 4 with more value bits left); here the count is
carried downward as writesLeft + 1 = 4 - num_bytes_written, so the
recursion is structural.  The writesLeft = 0 entry case is unreachable
from the entry point, which starts at 4. -/
def encodeRemainingLengthGo {σ : Type} (d : ByteSink σ) (original : Nat) :
    Nat → Nat → σ → Except EncodeError σ
  | 0, _, _ => .error (.remainingLengthTooHigh original)
  | writesLeft + 1, item, s =>
    let nextItem := item >>> 7
    let encodedByte := if 0 < nextItem then (item &&& 0x7F) ||| 0x80 else item &&& 0x7F
    match d.tryPutU8 s encodedByte with
    | .error e => .error e
    | .ok s =>
      if nextItem = 0 then
        .ok s
      else if writesLeft = 0 then
        .error (.remainingLengthTooHigh original)
      else
        encodeRemainingLengthGo d original writesLeft nextItem s

/-- encode_remaining_length (src/lib.rs): at most four bytes of seven value
bits each, shortest form, high values rejected. -/
def encodeRemainingLength {σ : Type} (d : ByteSink σ) (item : Nat) (s : σ) :
    Except EncodeError σ :=
  encodeRemainingLengthGo d item 4 item s

/-- A byte string (ByteStr in src/byte_str.rs): a view whose first two
bytes are the big-endian length of the remaining bytes.  The buffer keeps
the length prefix, exactly as the source does. -/
structure ByteStr where
  buf : List Nat
  deriving DecidableEq, Repr

/-- ByteStr::as_bytes - the payload after the two-byte length prefix. -/
def ByteStr.asBytes (s : ByteStr) : List Nat :=
  s.buf.drop 2

/-- ByteStr::is_empty - true iff the whole buffer is the two zero length
bytes. -/
def ByteStr.isEmpty (s : ByteStr) : Bool :=
  s.buf = [0x00, 0x00]

/-- ByteStr::decode (src/byte_str.rs): reads the two-byte big-endian length
then splits off prefix plus payload; returns none when fewer than 2 + len
bytes are present.  No validation of the payload bytes is performed. -/
def ByteStr.decode (src : List Nat) : Except DecodeError (Option (ByteStr × List Nat)) :=
  match src with
  | b1 :: b2 :: _ =>
    let len := b1 * 256 + b2
    if src.length < 2 + len then
      .ok none
    else
      .ok (some (⟨src.take (2 + len)⟩, src.drop (2 + len)))
  | _ => .ok none

/-- ByteStr::encode - re-emits the stored buffer, prefix included. -/
def ByteStr.encode {σ : Type} (d : ByteSink σ) (s : ByteStr) (dst : σ) :
    Except EncodeError σ :=
  d.tryPutBytes dst s.buf

/-- Validity of a byte sequence as UTF-8 (RFC 3629 byte patterns).  The
codec's spec requires byte-string payloads to be valid UTF-8; this
predicate expresses that requirement for the statements below. -/
def isUtf8 : List Nat → Bool
  | [] => true
  | b0 :: rest =>
    if b0 ≤ 0x7F then
      isUtf8 rest
    else if 0xC2 ≤ b0 ∧ b0 ≤ 0xDF then
      match rest with
      | b1 :: rest1 => if 0x80 ≤ b1 ∧ b1 ≤ 0xBF then isUtf8 rest1 else false
      | [] => false
    else if b0 = 0xE0 then
      match rest with
      | b1 :: b2 :: rest2 =>
        if (0xA0 ≤ b1 ∧ b1 ≤ 0xBF) ∧ (0x80 ≤ b2 ∧ b2 ≤ 0xBF) then isUtf8 rest2 else false
      | _ => false
    else if (0xE1 ≤ b0 ∧ b0 ≤ 0xEC) ∨ b0 = 0xEE ∨ b0 = 0xEF then
      match rest with
      | b1 :: b2 :: rest2 =>
        if (0x80 ≤ b1 ∧ b1 ≤ 0xBF) ∧ (0x80 ≤ b2 ∧ b2 ≤ 0xBF) then isUtf8 rest2 else false
      | _ => false
    else if b0 = 0xED then
      match rest with
      | b1 :: b2 :: rest2 =>
        if (0x80 ≤ b1 ∧ b1 ≤ 0x9F) ∧ (0x80 ≤ b2 ∧ b2 ≤ 0xBF) then isUtf8 rest2 else false
      | _ => false
    else if b0 = 0xF0 then
      match rest with
      | b1 :: b2 :: b3 :: rest3 =>
        if (0x90 ≤ b1 ∧ b1 ≤ 0xBF) ∧ (0x80 ≤ b2 ∧ b2 ≤ 0xBF) ∧ (0x80 ≤ b3 ∧ b3 ≤ 0xBF) then
          isUtf8 rest3
        else false
      | _ => false
    else if 0xF1 ≤ b0 ∧ b0 ≤ 0xF3 then
      match rest with
      | b1 :: b2 :: b3 :: rest3 =>
        if (0x80 ≤ b1 ∧ b1 ≤ 0xBF) ∧ (0x80 ≤ b2 ∧ b2 ≤ 0xBF) ∧ (0x80 ≤ b3 ∧ b3 ≤ 0xBF) then
          isUtf8 rest3
        else false
      | _ => false
    else if b0 = 0xF4 then
      match rest with
      | b1 :: b2 :: b3 :: rest3 =>
        if (0x80 ≤ b1 ∧ b1 ≤ 0x8F) ∧ (0x80 ≤ b2 ∧ b2 ≤ 0xBF) ∧ (0x80 ≤ b3 ∧ b3 ≤ 0xBF) then
          isUtf8 rest3
        else false
      | _ => false
    else false

/-- Quality of service levels (QoS in src/lib.rs). -/
inductive QoS where
  | atMostOnce
  | atLeastOnce
  | exactlyOnce
  deriving DecidableEq, Repr

/-- From of QoS for u8 (define_u8_code). -/
def QoS.toU8 : QoS → Nat
  | .atMostOnce => 0x00
  | .atLeastOnce => 0x01
  | .exactlyOnce => 0x02

/-- TryFrom of u8 for QoS (define_u8_code). -/
def QoS.tryFrom (code : Nat) : Except DecodeError QoS :=
  match code with
  | 0x00 => .ok .atMostOnce
  | 0x01 => .ok .atLeastOnce
  | 0x02 => .ok .exactlyOnce
  | code => .error (.unrecognizedQoS code)

namespace V5

/-- The v5 property union (Property in src/v5/property.rs).  Durations are
modelled by their whole-second values, usize values by Nat, and binary
values (which keep their two-byte length prefix in the source) by the byte
list including that prefix. -/
inductive Property where
  | assignedClientIdentifier (clientId : ByteStr)
  | authenticationData (data : List Nat)
  | authenticationMethod (method : ByteStr)
  | contentType (contentType : ByteStr)
  | correlationData (data : List Nat)
  | maximumPacketSize (value : Nat)
  | maximumQoS (qos : QoS)
  | messageExpiryInterval (secs : Nat)
  | payloadIsUtf8 (isUtf8 : Bool)
  | reasonString (reasonString : ByteStr)
  | receiveMaximum (value : Nat)
  | requestProblemInformation (requested : Bool)
  | requestResponseInformation (requested : Bool)
  | responseInformation (responseInformation : ByteStr)
  | responseTopic (responseTopic : ByteStr)
  | retainAvailable (available : Bool)
  | serverKeepAlive (secs : Nat)
  | serverReference (serverReference : ByteStr)
  | sessionExpiryInterval (secs : Nat)
  | sharedSubscriptionAvailable (available : Bool)
  | subscriptionIdentifier (value : Nat)
  | subscriptionIdentifierAvailable (available : Bool)
  | topicAlias (value : Nat)
  | topicAliasMaximum (value : Nat)
  | userProperty (name value : ByteStr)
  | wildcardSubscriptionAvailable (available : Bool)
  | willDelayInterval (secs : Nat)
  deriving DecidableEq, Repr

/-- Property::decode (src/v5/property.rs): reads the one-byte identifier
and then the identifier-specific value bytes. -/
def Property.decode (src : List Nat) : Except DecodeError (Property × List Nat) :=
  match tryGetU8 src with
  | (.error e, _) => .error e
  | (.ok identifier, src) =>
    match identifier with
    | 0x01 =>
      match tryGetU8 src with
      | (.error e, _) => .error e
      | (.ok value, src) =>
        match value with
        | 0x00 => .ok (.payloadIsUtf8 false, src)
        | 0x01 => .ok (.payloadIsUtf8 true, src)
        | value => .error (.unrecognizedPayloadFormatIndicator value)
    | 0x02 =>
      match tryGetU32be src with
      | (.error e, _) => .error e
      | (.ok interval, src) => .ok (.messageExpiryInterval interval, src)
    | 0x03 =>
      match ByteStr.decode src with
      | .error e => .error e
      | .ok none => .error .incompletePacket
      | .ok (some (str, src)) => .ok (.contentType str, src)
    | 0x08 =>
      match ByteStr.decode src with
      | .error e => .error e
      | .ok none => .error .incompletePacket
      | .ok (some (str, src)) => .ok (.responseTopic str, src)
    | 0x09 =>
      match src with
      | b1 :: b2 :: _ =>
        let len := b1 * 256 + b2
        if src.length < 2 + len then .error .incompletePacket
        else .ok (.correlationData (src.take (2 + len)), src.drop (2 + len))
      | _ => .error .incompletePacket
    | 0x0B =>
      match decodeRemainingLength src with
      | .error e => .error e
      | .ok (none, _) => .error .incompletePacket
      | .ok (some remainingLength, src) => .ok (.subscriptionIdentifier remainingLength, src)
    | 0x11 =>
      match tryGetU32be src with
      | (.error e, _) => .error e
      | (.ok interval, src) => .ok (.sessionExpiryInterval interval, src)
    | 0x12 =>
      match ByteStr.decode src with
      | .error e => .error e
      | .ok none => .error .incompletePacket
      | .ok (some (clientId, src)) => .ok (.assignedClientIdentifier clientId, src)
    | 0x13 =>
      match tryGetU16be src with
      | (.error e, _) => .error e
      | (.ok keepAlive, src) => .ok (.serverKeepAlive keepAlive, src)
    | 0x15 =>
      match ByteStr.decode src with
      | .error e => .error e
      | .ok none => .error .incompletePacket
      | .ok (some (method, src)) => .ok (.authenticationMethod method, src)
    | 0x16 =>
      match src with
      | b1 :: b2 :: _ =>
        let len := b1 * 256 + b2
        if src.length < 2 + len then .error .incompletePacket
        else .ok (.authenticationData (src.take (2 + len)), src.drop (2 + len))
      | _ => .error .incompletePacket
    | 0x17 =>
      match tryGetU8 src with
      | (.error e, _) => .error e
      | (.ok value, src) =>
        match value with
        | 0x00 => .ok (.requestProblemInformation false, src)
        | 0x01 => .ok (.requestProblemInformation true, src)
        | value => .error (.unrecognizedRequestProblemInformation value)
    | 0x18 =>
      match tryGetU32be src with
      | (.error e, _) => .error e
      | (.ok interval, src) => .ok (.willDelayInterval interval, src)
    | 0x19 =>
      match tryGetU8 src with
      | (.error e, _) => .error e
      | (.ok value, src) =>
        match value with
        | 0x00 => .ok (.requestResponseInformation false, src)
        | 0x01 => .ok (.requestResponseInformation true, src)
        | value => .error (.unrecognizedRequestResponseInformation value)
    | 0x1A =>
      match ByteStr.decode src with
      | .error e => .error e
      | .ok none => .error .incompletePacket
      | .ok (some (str, src)) => .ok (.responseInformation str, src)
    | 0x1C =>
      match ByteStr.decode src with
      | .error e => .error e
      | .ok none => .error .incompletePacket
      | .ok (some (str, src)) => .ok (.serverReference str, src)
    | 0x1F =>
      match ByteStr.decode src with
      | .error e => .error e
      | .ok none => .error .incompletePacket
      | .ok (some (str, src)) => .ok (.reasonString str, src)
    | 0x21 =>
      match tryGetU16be src with
      | (.error e, _) => .error e
      | (.ok value, src) => .ok (.receiveMaximum value, src)
    | 0x22 =>
      match tryGetU16be src with
      | (.error e, _) => .error e
      | (.ok value, src) => .ok (.topicAliasMaximum value, src)
    | 0x23 =>
      match tryGetU16be src with
      | (.error e, _) => .error e
      | (.ok value, src) => .ok (.topicAlias value, src)
    | 0x24 =>
      match tryGetU8 src with
      | (.error e, _) => .error e
      | (.ok value, src) =>
        match value with
        | 0x00 => .ok (.maximumQoS .atMostOnce, src)
        | 0x01 => .ok (.maximumQoS .atLeastOnce, src)
        | value => .error (.unrecognizedMaximumQoS value)
    | 0x25 =>
      match tryGetU8 src with
      | (.error e, _) => .error e
      | (.ok value, src) =>
        match value with
        | 0x00 => .ok (.retainAvailable false, src)
        | 0x01 => .ok (.retainAvailable true, src)
        | value => .error (.unrecognizedRetainAvailable value)
    | 0x26 =>
      match ByteStr.decode src with
      | .error e => .error e
      | .ok none => .error .incompletePacket
      | .ok (some (name, src)) =>
        match ByteStr.decode src with
        | .error e => .error e
        | .ok none => .error .incompletePacket
        | .ok (some (value, src)) => .ok (.userProperty name value, src)
    | 0x27 =>
      match tryGetU32be src with
      | (.error e, _) => .error e
      | (.ok value, src) =>
        if value = 0 then .error (.invalidMaximumPacketSize value)
        else .ok (.maximumPacketSize value, src)
    | 0x28 =>
      match tryGetU8 src with
      | (.error e, _) => .error e
      | (.ok value, src) =>
        match value with
        | 0x00 => .ok (.wildcardSubscriptionAvailable false, src)
        | 0x01 => .ok (.wildcardSubscriptionAvailable true, src)
        | value => .error (.unrecognizedWildcardSubscriptionAvailable value)
    | 0x29 =>
      match tryGetU8 src with
      | (.error e, _) => .error e
      | (.ok value, src) =>
        match value with
        | 0x00 => .ok (.subscriptionIdentifierAvailable false, src)
        | 0x01 => .ok (.subscriptionIdentifierAvailable true, src)
        | value => .error (.unrecognizedSubscriptionIdentifierAvailable value)
    | 0x2A =>
      match tryGetU8 src with
      | (.error e, _) => .error e
      | (.ok value, src) =>
        match value with
        | 0x00 => .ok (.sharedSubscriptionAvailable false, src)
        | 0x01 => .ok (.sharedSubscriptionAvailable true, src)
        | value => .error (.unrecognizedSharedSubscriptionAvailable value)
    | identifier => .error (.unrecognizedPropertyIdentifier identifier)

/-- First half of Property::decode_all (src/v5/property.rs): reads the
leading remaining-length of the property section and splits off exactly
that many bytes, returning the section and the rest of the view. -/
def Property.decodeAllSection (src : List Nat) :
    Except DecodeError (List Nat × List Nat) :=
  match decodeRemainingLength src with
  | .error e => .error e
  | .ok (none, _) => .error .incompletePacket
  | .ok (some remainingLength, rest) =>
    if rest.length < remainingLength then .error .incompletePacket
    else .ok (rest.take remainingLength, rest.drop remainingLength)

/-- Iteration of the PropertyDecodeIter from Property::decode_all combined
with the per-property processing loop generated by decode_properties!: the
iterator yields decoded properties until the section is empty, and the
loop folds each into the accumulated bindings.  The fuel argument only
bounds recursion; section length + 1 always suffices because every
property consumes at least its identifier byte. -/
def Property.decodeIter {α : Type} (step : α → Property → Except DecodeError α) :
    Nat → α → List Nat → Except DecodeError α
  | 0, _, _ => .error .incompletePacket
  | fuel + 1, acc, src =>
    if src.isEmpty then .ok acc
    else
      match Property.decode src with
      | .error e => .error e
      | .ok (property, src) =>
        match step acc property with
        | .error e => .error e
        | .ok acc => Property.decodeIter step fuel acc src

/-- Expansion of decode_properties!: split off the property section, then
run the processing loop over its properties, returning the accumulated
bindings and the view after the section. -/
def decodePropertiesWith {α : Type} (step : α → Property → Except DecodeError α)
    (init : α) (src : List Nat) : Except DecodeError (α × List Nat) :=
  match Property.decodeAllSection src with
  | .error e => .error e
  | .ok (sec, rest) =>
    match Property.decodeIter step (sec.length + 1) init sec with
    | .error e => .error e
    | .ok acc => .ok (acc, rest)

/-- Property::encode (src/v5/property.rs): emits the identifier byte and
the value bytes; properties at their default value are suppressed, and the
range checks reject invalid values. -/
def Property.encode {σ : Type} (d : ByteSink σ) (p : Property) (s : σ) :
    Except EncodeError σ :=
  match p with
  | .assignedClientIdentifier clientId =>
    match d.tryPutU8 s 0x12 with
    | .error e => .error e
    | .ok s => ByteStr.encode d clientId s
  | .authenticationData data =>
    match d.tryPutU8 s 0x16 with
    | .error e => .error e
    | .ok s => d.tryPutBytes s data
  | .authenticationMethod method =>
    match d.tryPutU8 s 0x15 with
    | .error e => .error e
    | .ok s => ByteStr.encode d method s
  | .contentType str =>
    match d.tryPutU8 s 0x03 with
    | .error e => .error e
    | .ok s => ByteStr.encode d str s
  | .correlationData data =>
    match d.tryPutU8 s 0x09 with
    | .error e => .error e
    | .ok s => d.tryPutBytes s data
  | .maximumPacketSize value =>
    if value = 0 then .error (.invalidMaximumPacketSize value)
    else if 2 ^ 32 ≤ value then .error (.invalidMaximumPacketSize value)
    else
      match d.tryPutU8 s 0x21 with
      | .error e => .error e
      | .ok s => d.tryPutU32be s value
  | .maximumQoS qos =>
    if qos = .atMostOnce ∨ qos = .atLeastOnce then
      match d.tryPutU8 s 0x24 with
      | .error e => .error e
      | .ok s => d.tryPutU8 s qos.toU8
    else .ok s
  | .messageExpiryInterval interval =>
    if 2 ^ 32 ≤ interval then .error (.invalidMessageExpiryInterval interval)
    else
      match d.tryPutU8 s 0x02 with
      | .error e => .error e
      | .ok s => d.tryPutU32be s interval
  | .payloadIsUtf8 isUtf8 =>
    if isUtf8 then
      match d.tryPutU8 s 0x01 with
      | .error e => .error e
      | .ok s => d.tryPutU8 s 0x01
    else .ok s
  | .reasonString str =>
    match d.tryPutU8 s 0x1F with
    | .error e => .error e
    | .ok s => ByteStr.encode d str s
  | .receiveMaximum value =>
    if value = 0 then .error (.invalidReceiveMaximum value)
    else if 2 ^ 16 ≤ value then .error (.invalidReceiveMaximum value)
    else if value < 0xFFFF then
      match d.tryPutU8 s 0x21 with
      | .error e => .error e
      | .ok s => d.tryPutU16be s value
    else .ok s
  | .requestProblemInformation requested =>
    if requested then .ok s
    else
      match d.tryPutU8 s 0x17 with
      | .error e => .error e
      | .ok s => d.tryPutU8 s 0x00
  | .requestResponseInformation requested =>
    if requested then
      match d.tryPutU8 s 0x19 with
      | .error e => .error e
      | .ok s => d.tryPutU8 s 0x01
    else .ok s
  | .responseInformation str =>
    match d.tryPutU8 s 0x1A with
    | .error e => .error e
    | .ok s => ByteStr.encode d str s
  | .responseTopic str =>
    match d.tryPutU8 s 0x08 with
    | .error e => .error e
    | .ok s => ByteStr.encode d str s
  | .retainAvailable available =>
    if available then .ok s
    else
      match d.tryPutU8 s 0x25 with
      | .error e => .error e
      | .ok s => d.tryPutU8 s 0x00
  | .serverKeepAlive keepAlive =>
    if 2 ^ 16 ≤ keepAlive then .error (.invalidServerKeepAlive keepAlive)
    else
      match d.tryPutU8 s 0x13 with
      | .error e => .error e
      | .ok s => d.tryPutU16be s keepAlive
  | .serverReference str =>
    match d.tryPutU8 s 0x1C with
    | .error e => .error e
    | .ok s => ByteStr.encode d str s
  | .sessionExpiryInterval interval =>
    if 2 ^ 32 ≤ interval then .error (.invalidSessionExpiryInterval interval)
    else if 0 < interval then
      match d.tryPutU8 s 0x11 with
      | .error e => .error e
      | .ok s => d.tryPutU32be s interval
    else .ok s
  | .sharedSubscriptionAvailable available =>
    if available then .ok s
    else
      match d.tryPutU8 s 0x2A with
      | .error e => .error e
      | .ok s => d.tryPutU8 s 0x00
  | .subscriptionIdentifier remainingLength =>
    match d.tryPutU8 s 0x0B with
    | .error e => .error e
    | .ok s => encodeRemainingLength d remainingLength s
  | .subscriptionIdentifierAvailable available =>
    if available then .ok s
    else
      match d.tryPutU8 s 0x29 with
      | .error e => .error e
      | .ok s => d.tryPutU8 s 0x00
  | .topicAlias value =>
    if value = 0 then .error (.invalidTopicAlias value)
    else
      match d.tryPutU8 s 0x23 with
      | .error e => .error e
      | .ok s => d.tryPutU16be s value
  | .topicAliasMaximum value =>
    if 0 < value then
      match d.tryPutU8 s 0x22 with
      | .error e => .error e
      | .ok s => d.tryPutU16be s value
    else .ok s
  | .userProperty name value =>
    match d.tryPutU8 s 0x26 with
    | .error e => .error e
    | .ok s =>
      match ByteStr.encode d name s with
      | .error e => .error e
      | .ok s => ByteStr.encode d value s
  | .wildcardSubscriptionAvailable available =>
    if available then .ok s
    else
      match d.tryPutU8 s 0x28 with
      | .error e => .error e
      | .ok s => d.tryPutU8 s 0x00
  | .willDelayInterval interval =>
    if 2 ^ 32 ≤ interval then .error (.invalidWillDelayInterval interval)
    else if 0 < interval then
      match d.tryPutU8 s 0x18 with
      | .error e => .error e
      | .ok s => d.tryPutU32be s interval
    else .ok s

end V5

/-- Generic encoding loop: runs a per-element encoder over a list,
threading the sink state (the shape of every for-loop over packet payload
elements in the source). -/
def encodeEach {α σ : Type} (step : α → σ → Except EncodeError σ) :
    List α → σ → Except EncodeError σ
  | [], s => .ok s
  | x :: xs, s =>
    match step x s with
    | .error e => .error e
    | .ok s => encodeEach step xs s

namespace V5

/-- encode_all_inner from Property::encode_all: encodes each property in
sequence. -/
def Property.encodeAllInner {σ : Type} (d : ByteSink σ) (properties : List Property)
    (s : σ) : Except EncodeError σ :=
  encodeEach (fun p s => Property.encode d p s) properties s

/-- Property::encode_all (src/v5/property.rs): computes the total property
byte length with the ByteCounter sink, emits it as a remaining-length
varint, then encodes the properties. -/
def Property.encodeAll {σ : Type} (d : ByteSink σ) (properties : List Property)
    (s : σ) : Except EncodeError σ :=
  match Property.encodeAllInner counterSink properties 0 with
  | .error e => .error e
  | .ok propertiesLength =>
    match encodeRemainingLength d propertiesLength s with
    | .error e => .error e
    | .ok s => Property.encodeAllInner d properties s

end V5

/-- The seven-byte length-prefixed protocol name, b"\x00\x04MQTT"
(PROTOCOL_NAME in src/lib.rs; six bytes: two length bytes plus MQTT). -/
def PROTOCOL_NAME : List Nat :=
  [0x00, 0x04, 0x4D, 0x51, 0x54, 0x54]

/-- ByteStr::EMPTY - the encoding of the empty string. -/
def ByteStr.EMPTY : List Nat :=
  [0x00, 0x00]

/-- The client identifier union (ClientId in src/lib.rs). -/
inductive ClientId where
  | serverGenerated
  | idWithCleanSession (clientId : ByteStr)
  | idWithExistingSession (clientId : ByteStr)
  deriving DecidableEq, Repr

/-- decode_fixed_header (src/lib.rs): one byte of packet type and flags,
then the remaining-length varint; none when either is truncated. -/
def decodeFixedHeader (src : List Nat) :
    Except DecodeError (Option (Nat × Nat × List Nat)) :=
  match src with
  | [] => .ok none
  | firstByte :: rest =>
    match decodeRemainingLength rest with
    | .error e => .error e
    | .ok (none, _) => .ok none
    | .ok (some remainingLength, rest) => .ok (some (firstByte, remainingLength, rest))

/-- decode_connect_start (src/lib.rs): checks the flag nibble, the
length-prefixed protocol name, and returns the protocol-level byte. -/
def decodeConnectStart (flags : Nat) (src : List Nat) :
    Except DecodeError (Nat × List Nat) :=
  if flags ≠ 0 then
    .error (.unrecognizedPacket 0x10 flags src.length)
  else
    match ByteStr.decode src with
    | .error e => .error e
    | .ok none => .error .incompletePacket
    | .ok (some (protocolName, src)) =>
      if protocolName.buf ≠ PROTOCOL_NAME then
        .error (.unrecognizedProtocolName protocolName.asBytes)
      else
        match tryGetU8 src with
        | (.error e, _) => .error e
        | (.ok protocolLevel, src) => .ok (protocolLevel, src)

namespace V5

/-- PROTOCOL_VERSION in src/v5/mod.rs. -/
def PROTOCOL_VERSION : Nat := 0x05

/-- PUBACK reason codes (src/v5/puback.rs). -/
inductive PubAckReasonCode where
  | success
  | noMatchingSubscribers
  | unspecifiedError
  | implementationSpecificError
  | notAuthorized
  | topicNameInvalid
  | packetIdentifierInUse
  | quotaExceeded
  | payloadFormatInvalid
  deriving DecidableEq, Repr

/-- From of PubAckReasonCode for u8 (define_u8_code). -/
def PubAckReasonCode.toU8 : PubAckReasonCode → Nat
  | .success => 0x00
  | .noMatchingSubscribers => 0x10
  | .unspecifiedError => 0x80
  | .implementationSpecificError => 0x83
  | .notAuthorized => 0x87
  | .topicNameInvalid => 0x90
  | .packetIdentifierInUse => 0x91
  | .quotaExceeded => 0x97
  | .payloadFormatInvalid => 0x99

/-- TryFrom of u8 for PubAckReasonCode (define_u8_code). -/
def PubAckReasonCode.tryFrom (code : Nat) : Except DecodeError PubAckReasonCode :=
  match code with
  | 0x00 => .ok .success
  | 0x10 => .ok .noMatchingSubscribers
  | 0x80 => .ok .unspecifiedError
  | 0x83 => .ok .implementationSpecificError
  | 0x87 => .ok .notAuthorized
  | 0x90 => .ok .topicNameInvalid
  | 0x91 => .ok .packetIdentifierInUse
  | 0x97 => .ok .quotaExceeded
  | 0x99 => .ok .payloadFormatInvalid
  | code => .error (.unrecognizedPubAckReasonCode code)

/-- DISCONNECT reason codes (src/v5/disconnect.rs). -/
inductive DisconnectReasonCode where
  | normal
  | disconnectWithWillMessage
  | unspecifiedError
  | malformedPacket
  | protocolError
  | implementationSpecificError
  | notAuthorized
  | serverBusy
  | serverShuttingDown
  | keepAliveTimeout
  | sessionTakenOver
  | topicFilterInvalid
  | topicNameInvalid
  | receiveMaximumExceeded
  | topicAliasInvalid
  | packetTooLarge
  | messageRateTooHigh
  | quotaExceeded
  | administrativeAction
  | payloadFormatInvalid
  | retainNotSupported
  | qosNotSupported
  | useAnotherServer
  | serverMoved
  | sharedSubscriptionsNotSupported
  | connectionRateExceeded
  | maximumConnectTime
  | subscriptionIdentifiersNotSupported
  | wildcardSubscriptionsNotSupported
  deriving DecidableEq, Repr

/-- From of DisconnectReasonCode for u8 (define_u8_code). -/
def DisconnectReasonCode.toU8 : DisconnectReasonCode → Nat
  | .normal => 0x00
  | .disconnectWithWillMessage => 0x04
  | .unspecifiedError => 0x80
  | .malformedPacket => 0x81
  | .protocolError => 0x82
  | .implementationSpecificError => 0x83
  | .notAuthorized => 0x87
  | .serverBusy => 0x89
  | .serverShuttingDown => 0x8B
  | .keepAliveTimeout => 0x8D
  | .sessionTakenOver => 0x8E
  | .topicFilterInvalid => 0x8F
  | .topicNameInvalid => 0x90
  | .receiveMaximumExceeded => 0x93
  | .topicAliasInvalid => 0x94
  | .packetTooLarge => 0x95
  | .messageRateTooHigh => 0x96
  | .quotaExceeded => 0x97
  | .administrativeAction => 0x98
  | .payloadFormatInvalid => 0x99
  | .retainNotSupported => 0x9A
  | .qosNotSupported => 0x9B
  | .useAnotherServer => 0x9C
  | .serverMoved => 0x9D
  | .sharedSubscriptionsNotSupported => 0x9E
  | .connectionRateExceeded => 0x9F
  | .maximumConnectTime => 0xA0
  | .subscriptionIdentifiersNotSupported => 0xA1
  | .wildcardSubscriptionsNotSupported => 0xA2

/-- TryFrom of u8 for DisconnectReasonCode (define_u8_code). -/
def DisconnectReasonCode.tryFrom (code : Nat) : Except DecodeError DisconnectReasonCode :=
  match code with
  | 0x00 => .ok .normal
  | 0x04 => .ok .disconnectWithWillMessage
  | 0x80 => .ok .unspecifiedError
  | 0x81 => .ok .malformedPacket
  | 0x82 => .ok .protocolError
  | 0x83 => .ok .implementationSpecificError
  | 0x87 => .ok .notAuthorized
  | 0x89 => .ok .serverBusy
  | 0x8B => .ok .serverShuttingDown
  | 0x8D => .ok .keepAliveTimeout
  | 0x8E => .ok .sessionTakenOver
  | 0x8F => .ok .topicFilterInvalid
  | 0x90 => .ok .topicNameInvalid
  | 0x93 => .ok .receiveMaximumExceeded
  | 0x94 => .ok .topicAliasInvalid
  | 0x95 => .ok .packetTooLarge
  | 0x96 => .ok .messageRateTooHigh
  | 0x97 => .ok .quotaExceeded
  | 0x98 => .ok .administrativeAction
  | 0x99 => .ok .payloadFormatInvalid
  | 0x9A => .ok .retainNotSupported
  | 0x9B => .ok .qosNotSupported
  | 0x9C => .ok .useAnotherServer
  | 0x9D => .ok .serverMoved
  | 0x9E => .ok .sharedSubscriptionsNotSupported
  | 0x9F => .ok .connectionRateExceeded
  | 0xA0 => .ok .maximumConnectTime
  | 0xA1 => .ok .subscriptionIdentifiersNotSupported
  | 0xA2 => .ok .wildcardSubscriptionsNotSupported
  | code => .error (.unrecognizedDisconnectReasonCode code)

/-- The PUBACK packet (src/v5/puback.rs). -/
structure PubAck where
  packet_identifier : PacketIdentifier
  reason_code : PubAckReasonCode
  reason_string : Option ByteStr
  user_properties : List (ByteStr × ByteStr)
  deriving DecidableEq, Repr

/-- The DISCONNECT packet (src/v5/disconnect.rs). -/
structure Disconnect where
  reason_code : DisconnectReasonCode
  session_expiry_interval : Option Nat
  reason_string : Option ByteStr
  user_properties : List (ByteStr × ByteStr)
  server_reference : Option ByteStr
  deriving DecidableEq, Repr

/-- Property bindings of the acknowledgement packets
(decode_properties! with reason_string and user_properties): the folded
state is the optional reason string and the accumulated user
properties. -/
def ackPropsStep (acc : Option ByteStr × List (ByteStr × ByteStr)) (p : Property) :
    Except DecodeError (Option ByteStr × List (ByteStr × ByteStr)) :=
  match p with
  | .reasonString v =>
    match acc.1 with
    | some _ => .error (.duplicateProperty "ReasonString")
    | none => .ok (some v, acc.2)
  | .userProperty name value => .ok (acc.1, acc.2 ++ [(name, value)])
  | _ => .error .unexpectedProperty

/-- PubAck::decode (src/v5/puback.rs): packet identifier, then an optional
variable header; a missing reason-code byte yields the Success default. -/
def PubAck.decode (src : List Nat) : Except DecodeError (PubAck × List Nat) :=
  match tryGetPacketIdentifier src with
  | (.error e, _) => .error e
  | (.ok packetIdentifier, src) =>
    match tryGetU8 src with
    | (.ok code, src2) =>
      match PubAckReasonCode.tryFrom code with
      | .error e => .error e
      | .ok reasonCode =>
        match decodePropertiesWith ackPropsStep (none, []) src2 with
        | .error e => .error e
        | .ok ((reasonString, userProperties), src2) =>
          .ok ({ packet_identifier := packetIdentifier, reason_code := reasonCode,
                 reason_string := reasonString, user_properties := userProperties }, src2)
    | (.error .incompletePacket, _) =>
      .ok ({ packet_identifier := packetIdentifier, reason_code := .success,
             reason_string := none, user_properties := [] }, src)
    | (.error e, _) => .error e

/-- Property bindings of DISCONNECT (decode_properties! with
session_expiry_interval, reason_string, user_properties,
server_reference). -/
def disconnectPropsStep
    (acc : Option Nat × Option ByteStr × List (ByteStr × ByteStr) × Option ByteStr)
    (p : Property) :
    Except DecodeError (Option Nat × Option ByteStr × List (ByteStr × ByteStr) × Option ByteStr) :=
  match p with
  | .sessionExpiryInterval v =>
    match acc.1 with
    | some _ => .error (.duplicateProperty "SessionExpiryInterval")
    | none => .ok (some v, acc.2.1, acc.2.2.1, acc.2.2.2)
  | .reasonString v =>
    match acc.2.1 with
    | some _ => .error (.duplicateProperty "ReasonString")
    | none => .ok (acc.1, some v, acc.2.2.1, acc.2.2.2)
  | .userProperty name value => .ok (acc.1, acc.2.1, acc.2.2.1 ++ [(name, value)], acc.2.2.2)
  | .serverReference v =>
    match acc.2.2.2 with
    | some _ => .error (.duplicateProperty "ServerReference")
    | none => .ok (acc.1, acc.2.1, acc.2.2.1, some v)
  | _ => .error .unexpectedProperty

/-- Disconnect::decode (src/v5/disconnect.rs): the whole variable header is
optional; an empty body yields the Normal default. -/
def Disconnect.decode (src : List Nat) : Except DecodeError (Disconnect × List Nat) :=
  match tryGetU8 src with
  | (.ok code, src2) =>
    match DisconnectReasonCode.tryFrom code with
    | .error e => .error e
    | .ok reasonCode =>
      match decodePropertiesWith disconnectPropsStep (none, none, [], none) src2 with
      | .error e => .error e
      | .ok ((sessionExpiryInterval, reasonString, userProperties, serverReference), src2) =>
        .ok ({ reason_code := reasonCode, session_expiry_interval := sessionExpiryInterval,
               reason_string := reasonString, user_properties := userProperties,
               server_reference := serverReference }, src2)
  | (.error .incompletePacket, _) =>
    .ok ({ reason_code := .normal, session_expiry_interval := none, reason_string := none,
           user_properties := [], server_reference := none }, src)
  | (.error e, _) => .error e

/-- A publication carried by a v5 will or PUBLISH (Publication in
src/v5/mod.rs). -/
structure Publication where
  topic_name : ByteStr
  qos : QoS
  retain : Bool
  payload_is_utf8 : Bool
  message_expiry_interval : Option Nat
  topic_alias : Option Nat
  response_topic : Option ByteStr
  correlation_data : Option (List Nat)
  user_properties : List (ByteStr × ByteStr)
  content_type : Option ByteStr
  payload : List Nat
  deriving DecidableEq, Repr

/-- The v5 CONNECT packet (src/v5/connect.rs).  The will field pairs the
publication with its will-delay-interval seconds. -/
structure Connect where
  username : Option ByteStr
  password : Option ByteStr
  will : Option (Publication × Nat)
  client_id : ClientId
  keep_alive : Nat
  session_expiry_interval : Option Nat
  receive_maximum : Nat
  maximum_packet_size : Option Nat
  topic_alias_maximum : Nat
  request_response_information : Bool
  request_problem_information : Bool
  user_properties : List (ByteStr × ByteStr)
  authentication_method : Option ByteStr
  authentication_data : Option (List Nat)
  deriving DecidableEq, Repr

/-- Accumulated bindings of the CONNECT property section. -/
structure ConnectPropsAcc where
  session_expiry_interval : Option Nat := none
  receive_maximum : Option Nat := none
  maximum_packet_size : Option Nat := none
  topic_alias_maximum : Option Nat := none
  request_response_information : Option Bool := none
  request_problem_information : Option Bool := none
  user_properties : List (ByteStr × ByteStr) := []
  authentication_method : Option ByteStr := none
  authentication_data : Option (List Nat) := none
  deriving DecidableEq, Repr

/-- Property bindings of CONNECT (decode_properties! in
v5::Connect::decode_rest). -/
def connectPropsStep (acc : ConnectPropsAcc) (p : Property) :
    Except DecodeError ConnectPropsAcc :=
  match p with
  | .sessionExpiryInterval v =>
    match acc.session_expiry_interval with
    | some _ => .error (.duplicateProperty "SessionExpiryInterval")
    | none => .ok { acc with session_expiry_interval := some v }
  | .receiveMaximum v =>
    match acc.receive_maximum with
    | some _ => .error (.duplicateProperty "ReceiveMaximum")
    | none => .ok { acc with receive_maximum := some v }
  | .maximumPacketSize v =>
    match acc.maximum_packet_size with
    | some _ => .error (.duplicateProperty "MaximumPacketSize")
    | none => .ok { acc with maximum_packet_size := some v }
  | .topicAliasMaximum v =>
    match acc.topic_alias_maximum with
    | some _ => .error (.duplicateProperty "TopicAliasMaximum")
    | none => .ok { acc with topic_alias_maximum := some v }
  | .requestResponseInformation v =>
    match acc.request_response_information with
    | some _ => .error (.duplicateProperty "RequestResponseInformation")
    | none => .ok { acc with request_response_information := some v }
  | .requestProblemInformation v =>
    match acc.request_problem_information with
    | some _ => .error (.duplicateProperty "RequestProblemInformation")
    | none => .ok { acc with request_problem_information := some v }
  | .userProperty name value =>
    .ok { acc with user_properties := acc.user_properties ++ [(name, value)] }
  | .authenticationMethod v =>
    match acc.authentication_method with
    | some _ => .error (.duplicateProperty "AuthenticationMethod")
    | none => .ok { acc with authentication_method := some v }
  | .authenticationData v =>
    match acc.authentication_data with
    | some _ => .error (.duplicateProperty "AuthenticationData")
    | none => .ok { acc with authentication_data := some v }
  | _ => .error .unexpectedProperty

/-- Accumulated bindings of the will property sub-block in CONNECT. -/
structure WillPropsAcc where
  will_delay_interval : Option Nat := none
  will_payload_is_utf8 : Option Bool := none
  will_message_expiry_interval : Option Nat := none
  will_content_type : Option ByteStr := none
  will_response_topic : Option ByteStr := none
  will_correlation_data : Option (List Nat) := none
  will_user_properties : List (ByteStr × ByteStr) := []
  deriving DecidableEq, Repr

/-- Property bindings of the will sub-block (decode_properties! in
v5::Connect::decode_rest). -/
def willPropsStep (acc : WillPropsAcc) (p : Property) :
    Except DecodeError WillPropsAcc :=
  match p with
  | .willDelayInterval v =>
    match acc.will_delay_interval with
    | some _ => .error (.duplicateProperty "WillDelayInterval")
    | none => .ok { acc with will_delay_interval := some v }
  | .payloadIsUtf8 v =>
    match acc.will_payload_is_utf8 with
    | some _ => .error (.duplicateProperty "PayloadIsUtf8")
    | none => .ok { acc with will_payload_is_utf8 := some v }
  | .messageExpiryInterval v =>
    match acc.will_message_expiry_interval with
    | some _ => .error (.duplicateProperty "MessageExpiryInterval")
    | none => .ok { acc with will_message_expiry_interval := some v }
  | .contentType v =>
    match acc.will_content_type with
    | some _ => .error (.duplicateProperty "ContentType")
    | none => .ok { acc with will_content_type := some v }
  | .responseTopic v =>
    match acc.will_response_topic with
    | some _ => .error (.duplicateProperty "ResponseTopic")
    | none => .ok { acc with will_response_topic := some v }
  | .correlationData v =>
    match acc.will_correlation_data with
    | some _ => .error (.duplicateProperty "CorrelationData")
    | none => .ok { acc with will_correlation_data := some v }
  | .userProperty name value =>
    .ok { acc with will_user_properties := acc.will_user_properties ++ [(name, value)] }
  | _ => .error .unexpectedProperty

/-- v5::Connect::decode_rest (src/v5/connect.rs).  Note that this function
itself reads a length-prefixed protocol name and a protocol-version byte
from the front of the view before the connect flags. -/
def Connect.decodeRest (src : List Nat) : Except DecodeError (Connect × List Nat) :=
  match ByteStr.decode src with
  | .error e => .error e
  | .ok none => .error .incompletePacket
  | .ok (some (protocolName, src)) =>
    if protocolName.buf ≠ PROTOCOL_NAME then
      .error (.unrecognizedProtocolName protocolName.asBytes)
    else
      match tryGetU8 src with
      | (.error e, _) => .error e
      | (.ok protocolVersion, src) =>
        if protocolVersion ≠ PROTOCOL_VERSION then
          .error (.unrecognizedProtocolVersion protocolVersion)
        else
          match tryGetU8 src with
          | (.error e, _) => .error e
          | (.ok connectFlags, src) =>
            if connectFlags &&& 0b00000001 ≠ 0 then .error .connectReservedSet
            else
              match tryGetU16be src with
              | (.error e, _) => .error e
              | (.ok keepAlive, src) =>
                match decodePropertiesWith connectPropsStep {} src with
                | .error e => .error e
                | .ok (props, src) =>
                  match ByteStr.decode src with
                  | .error e => .error e
                  | .ok none => .error .incompletePacket
                  | .ok (some (clientIdStr, src)) =>
                    let clientId :=
                      if clientIdStr.isEmpty then ClientId.serverGenerated
                      else if connectFlags &&& 0b00000010 = 0 then
                        ClientId.idWithExistingSession clientIdStr
                      else ClientId.idWithCleanSession clientIdStr
                    let willResult :
                        Except DecodeError (Option (Publication × Nat) × List Nat) :=
                      if connectFlags &&& 0b00000100 = 0 then .ok (none, src)
                      else
                        match decodePropertiesWith willPropsStep {} src with
                        | .error e => .error e
                        | .ok (wp, src) =>
                          match ByteStr.decode src with
                          | .error e => .error e
                          | .ok none => .error .incompletePacket
                          | .ok (some (topicName, src)) =>
                            let qosResult : Except DecodeError QoS :=
                              match connectFlags &&& 0b00011000 with
                              | 0x00 => .ok .atMostOnce
                              | 0x08 => .ok .atLeastOnce
                              | 0x10 => .ok .exactlyOnce
                              | qos => .error (.unrecognizedQoS (qos >>> 3))
                            match qosResult with
                            | .error e => .error e
                            | .ok qos =>
                              let retain := connectFlags &&& 0b00100000 ≠ 0
                              match tryGetU16be src with
                              | (.error e, _) => .error e
                              | (.ok payloadLen, src) =>
                                if src.length < payloadLen then .error .incompletePacket
                                else
                                  .ok (some
                                    ({ topic_name := topicName, qos := qos, retain := retain,
                                       payload_is_utf8 := wp.will_payload_is_utf8.getD false,
                                       message_expiry_interval := wp.will_message_expiry_interval,
                                       topic_alias := none,
                                       response_topic := wp.will_response_topic,
                                       correlation_data := wp.will_correlation_data,
                                       user_properties := wp.will_user_properties,
                                       content_type := wp.will_content_type,
                                       payload := src.take payloadLen },
                                      wp.will_delay_interval.getD 0), src.drop payloadLen)
                    match willResult with
                    | .error e => .error e
                    | .ok (will, src) =>
                      let usernameResult :
                          Except DecodeError (Option ByteStr × List Nat) :=
                        if connectFlags &&& 0b10000000 = 0 then .ok (none, src)
                        else
                          match ByteStr.decode src with
                          | .error e => .error e
                          | .ok none => .error .incompletePacket
                          | .ok (some (username, src)) => .ok (some username, src)
                      match usernameResult with
                      | .error e => .error e
                      | .ok (username, src) =>
                        let passwordResult :
                            Except DecodeError (Option ByteStr × List Nat) :=
                          if connectFlags &&& 0b01000000 = 0 then .ok (none, src)
                          else
                            match ByteStr.decode src with
                            | .error e => .error e
                            | .ok none => .error .incompletePacket
                            | .ok (some (password, src)) => .ok (some password, src)
                        match passwordResult with
                        | .error e => .error e
                        | .ok (password, src) =>
                          .ok ({ username := username, password := password, will := will,
                                 client_id := clientId, keep_alive := keepAlive,
                                 session_expiry_interval := props.session_expiry_interval,
                                 receive_maximum := props.receive_maximum.getD 0xFFFF,
                                 maximum_packet_size := props.maximum_packet_size,
                                 topic_alias_maximum := props.topic_alias_maximum.getD 0,
                                 request_response_information :=
                                   props.request_response_information.getD false,
                                 request_problem_information :=
                                   props.request_problem_information.getD true,
                                 user_properties := props.user_properties,
                                 authentication_method := props.authentication_method,
                                 authentication_data := props.authentication_data }, src)

/-- PacketMeta decode of the v5 CONNECT (src/v5/connect.rs): reads the
protocol name and level through decode_connect_start, checks the level is
5, then calls decode_rest. -/
def Connect.decode (flags : Nat) (src : List Nat) :
    Except DecodeError (Connect × List Nat) :=
  match decodeConnectStart flags src with
  | .error e => .error e
  | .ok (protocolVersion, src) =>
    if protocolVersion ≠ PROTOCOL_VERSION then
      .error (.unrecognizedProtocolVersion protocolVersion)
    else Connect.decodeRest src

end V5

namespace V3

/-- PROTOCOL_LEVEL in src/v3.rs. -/
def PROTOCOL_LEVEL : Nat := 0x04

/-- A v3 publication (Publication in src/v3.rs). -/
structure Publication where
  topic_name : ByteStr
  qos : QoS
  retain : Bool
  payload : List Nat
  deriving DecidableEq, Repr

/-- The v3 CONNECT packet (src/v3.rs). -/
structure Connect where
  username : Option ByteStr
  password : Option ByteStr
  will : Option Publication
  client_id : ClientId
  keep_alive : Nat
  deriving DecidableEq, Repr

/-- v3::Connect::decode_rest (src/v3.rs): starts directly at the connect
flags (the protocol name and level have already been consumed by the
caller). -/
def Connect.decodeRest (src : List Nat) : Except DecodeError (Connect × List Nat) :=
  match tryGetU8 src with
  | (.error e, _) => .error e
  | (.ok connectFlags, src) =>
    if connectFlags &&& 0x01 ≠ 0 then .error .connectReservedSet
    else
      match tryGetU16be src with
      | (.error e, _) => .error e
      | (.ok keepAlive, src) =>
        match ByteStr.decode src with
        | .error e => .error e
        | .ok none => .error .incompletePacket
        | .ok (some (clientIdStr, src)) =>
          let clientIdResult : Except DecodeError ClientId :=
            if clientIdStr.isEmpty then
              if connectFlags &&& 0x02 = 0 then
                .error .connectZeroLengthIdWithExistingSession
              else .ok ClientId.serverGenerated
            else if connectFlags &&& 0x02 = 0 then
              .ok (ClientId.idWithExistingSession clientIdStr)
            else .ok (ClientId.idWithCleanSession clientIdStr)
          match clientIdResult with
          | .error e => .error e
          | .ok clientId =>
            let willResult : Except DecodeError (Option Publication × List Nat) :=
              if connectFlags &&& 0x04 = 0 then .ok (none, src)
              else
                match ByteStr.decode src with
                | .error e => .error e
                | .ok none => .error .incompletePacket
                | .ok (some (topicName, src)) =>
                  let qosResult : Except DecodeError QoS :=
                    match connectFlags &&& 0x18 with
                    | 0x00 => .ok .atMostOnce
                    | 0x08 => .ok .atLeastOnce
                    | 0x10 => .ok .exactlyOnce
                    | qos => .error (.unrecognizedQoS (qos >>> 3))
                  match qosResult with
                  | .error e => .error e
                  | .ok qos =>
                    let retain := connectFlags &&& 0x20 ≠ 0
                    match tryGetU16be src with
                    | (.error e, _) => .error e
                    | (.ok payloadLen, src) =>
                      if src.length < payloadLen then .error .incompletePacket
                      else
                        .ok (some { topic_name := topicName, qos := qos, retain := retain,
                                    payload := src.take payloadLen }, src.drop payloadLen)
            match willResult with
            | .error e => .error e
            | .ok (will, src) =>
              let usernameResult : Except DecodeError (Option ByteStr × List Nat) :=
                if connectFlags &&& 0x80 = 0 then .ok (none, src)
                else
                  match ByteStr.decode src with
                  | .error e => .error e
                  | .ok none => .error .incompletePacket
                  | .ok (some (username, src)) => .ok (some username, src)
              match usernameResult with
              | .error e => .error e
              | .ok (username, src) =>
                let passwordResult : Except DecodeError (Option ByteStr × List Nat) :=
                  if connectFlags &&& 0x40 = 0 then .ok (none, src)
                  else
                    match ByteStr.decode src with
                    | .error e => .error e
                    | .ok none => .error .incompletePacket
                    | .ok (some (password, src)) => .ok (some password, src)
                match passwordResult with
                | .error e => .error e
                | .ok (password, src) =>
                  .ok ({ username := username, password := password, will := will,
                         client_id := clientId, keep_alive := keepAlive }, src)

end V3

namespace V5

/-- AUTH reason codes (src/v5/auth.rs). -/
inductive AuthenticateReasonCode where
  | success
  | continueAuthentication
  | reAuthenticate
  deriving DecidableEq, Repr

/-- From of AuthenticateReasonCode for u8. -/
def AuthenticateReasonCode.toU8 : AuthenticateReasonCode → Nat
  | .success => 0x00
  | .continueAuthentication => 0x18
  | .reAuthenticate => 0x19

/-- Refusal reasons of the v5 CONNACK (src/v5/connack.rs). -/
inductive ConnectionRefusedReason where
  | unspecifiedError
  | malformedPacket
  | protocolError
  | implementationSpecificError
  | unsupportedProtocolVersion
  | clientIdentifierNotValid
  | badUserNameOrPassword
  | notAuthorized
  | serverUnavailable
  | serverBusy
  | banned
  | badAuthenticationMethod
  | topicNameInvalid
  | packetTooLarge
  | quotaExceeded
  | payloadFormatInvalid
  | retainNotSupported
  | qosNotSupported
  | useAnotherServer
  | serverMoved
  | connectionRateExceeded
  deriving DecidableEq, Repr

/-- From of ConnectionRefusedReason for u8. -/
def ConnectionRefusedReason.toU8 : ConnectionRefusedReason → Nat
  | .unspecifiedError => 0x80
  | .malformedPacket => 0x81
  | .protocolError => 0x82
  | .implementationSpecificError => 0x83
  | .unsupportedProtocolVersion => 0x84
  | .clientIdentifierNotValid => 0x85
  | .badUserNameOrPassword => 0x86
  | .notAuthorized => 0x87
  | .serverUnavailable => 0x88
  | .serverBusy => 0x89
  | .banned => 0x8A
  | .badAuthenticationMethod => 0x8C
  | .topicNameInvalid => 0x90
  | .packetTooLarge => 0x95
  | .quotaExceeded => 0x97
  | .payloadFormatInvalid => 0x99
  | .retainNotSupported => 0x9A
  | .qosNotSupported => 0x9B
  | .useAnotherServer => 0x9C
  | .serverMoved => 0x9D
  | .connectionRateExceeded => 0x9F

/-- The v5 connect reason code (ConnectReasonCode in src/v5/connack.rs). -/
inductive ConnectReasonCode where
  | success (session_present : Bool)
  | refused (reason : ConnectionRefusedReason)
  deriving DecidableEq, Repr

/-- From of ConnectReasonCode for u8. -/
def ConnectReasonCode.toU8 : ConnectReasonCode → Nat
  | .success _ => 0x00
  | .refused reason => reason.toU8

/-- PUBREC reason codes (src/v5/pubrec.rs). -/
inductive PubRecReasonCode where
  | success
  | noMatchingSubscribers
  | unspecifiedError
  | implementationSpecificError
  | notAuthorized
  | topicNameInvalid
  | packetIdentifierInUse
  | quotaExceeded
  | payloadFormatInvalid
  deriving DecidableEq, Repr

/-- From of PubRecReasonCode for u8. -/
def PubRecReasonCode.toU8 : PubRecReasonCode → Nat
  | .success => 0x00
  | .noMatchingSubscribers => 0x10
  | .unspecifiedError => 0x80
  | .implementationSpecificError => 0x83
  | .notAuthorized => 0x87
  | .topicNameInvalid => 0x90
  | .packetIdentifierInUse => 0x91
  | .quotaExceeded => 0x97
  | .payloadFormatInvalid => 0x99

/-- PUBREL reason codes (src/v5/pubrel.rs). -/
inductive PubRelReasonCode where
  | success
  | packetIdentifierNotFound
  deriving DecidableEq, Repr

/-- From of PubRelReasonCode for u8. -/
def PubRelReasonCode.toU8 : PubRelReasonCode → Nat
  | .success => 0x00
  | .packetIdentifierNotFound => 0x92

/-- PUBCOMP reason codes (src/v5/pubcomp.rs). -/
inductive PubCompReasonCode where
  | success
  | packetIdentifierNotFound
  deriving DecidableEq, Repr

/-- From of PubCompReasonCode for u8. -/
def PubCompReasonCode.toU8 : PubCompReasonCode → Nat
  | .success => 0x00
  | .packetIdentifierNotFound => 0x92

/-- SUBACK reason codes (src/v5/suback.rs). -/
inductive SubscribeReasonCode where
  | grantedQoS0
  | grantedQoS1
  | grantedQoS2
  | unspecifiedError
  | implementationSpecificError
  | notAuthorized
  | topicFilterInvalid
  | packetIdentifierInUse
  | quotaExceeded
  | sharedSubscriptionsNotSupported
  | subscriptionIdentifiersNotSupported
  | wildcardSubscriptionsNotSupported
  deriving DecidableEq, Repr

/-- From of SubscribeReasonCode for u8. -/
def SubscribeReasonCode.toU8 : SubscribeReasonCode → Nat
  | .grantedQoS0 => 0x00
  | .grantedQoS1 => 0x01
  | .grantedQoS2 => 0x02
  | .unspecifiedError => 0x80
  | .implementationSpecificError => 0x83
  | .notAuthorized => 0x87
  | .topicFilterInvalid => 0x8F
  | .packetIdentifierInUse => 0x91
  | .quotaExceeded => 0x97
  | .sharedSubscriptionsNotSupported => 0x9E
  | .subscriptionIdentifiersNotSupported => 0xA1
  | .wildcardSubscriptionsNotSupported => 0xA2

/-- UNSUBACK reason codes (src/v5/unsuback.rs). -/
inductive UnsubscribeReasonCode where
  | success
  | noSubscriptionExisted
  | unspecifiedError
  | implementationSpecificError
  | notAuthorized
  | topicFilterInvalid
  | packetIdentifierInUse
  deriving DecidableEq, Repr

/-- From of UnsubscribeReasonCode for u8. -/
def UnsubscribeReasonCode.toU8 : UnsubscribeReasonCode → Nat
  | .success => 0x00
  | .noSubscriptionExisted => 0x01
  | .unspecifiedError => 0x80
  | .implementationSpecificError => 0x83
  | .notAuthorized => 0x87
  | .topicFilterInvalid => 0x8F
  | .packetIdentifierInUse => 0x91

/-- Retain handling of a v5 subscription (src/v5/subscribe.rs). -/
inductive RetainHandling where
  | send
  | sendOnlyIfSubscriptionDoesNotCurrentlyExist
  | doNotSend
  deriving DecidableEq, Repr

/-- From of RetainHandling for u8. -/
def RetainHandling.toU8 : RetainHandling → Nat
  | .send => 0x00
  | .sendOnlyIfSubscriptionDoesNotCurrentlyExist => 0x01
  | .doNotSend => 0x02

/-- The AUTH packet (src/v5/auth.rs). -/
structure Auth where
  reason_code : AuthenticateReasonCode
  authentication_method : Option ByteStr
  authentication_data : Option (List Nat)
  reason_string : Option ByteStr
  user_properties : List (ByteStr × ByteStr)
  deriving DecidableEq, Repr

/-- The v5 CONNACK packet (src/v5/connack.rs). -/
structure ConnAck where
  return_code : ConnectReasonCode
  session_expiry_interval : Option Nat
  receive_maximum : Nat
  maximum_qos : QoS
  retain_available : Bool
  maximum_packet_size : Option Nat
  assigned_client_id : Option ByteStr
  topic_alias_maximum : Nat
  reason_string : Option ByteStr
  user_properties : List (ByteStr × ByteStr)
  wildcard_subscription_available : Bool
  shared_subscription_available : Bool
  subscription_identifier_available : Bool
  server_keep_alive : Option Nat
  response_information : Option ByteStr
  server_reference : Option ByteStr
  authentication_method : Option ByteStr
  authentication_data : Option (List Nat)
  deriving DecidableEq, Repr

/-- Packet identifier, dup flag and QoS of a v5 PUBLISH
(src/v5/publish.rs). -/
inductive PacketIdentifierDupQoS where
  | atMostOnce
  | atLeastOnce (packetIdentifier : PacketIdentifier) (dup : Bool)
  | exactlyOnce (packetIdentifier : PacketIdentifier) (dup : Bool)
  deriving DecidableEq, Repr

/-- The v5 PUBLISH packet (src/v5/publish.rs). -/
structure Publish where
  topic_name : ByteStr
  packet_identifier_dup_qos : PacketIdentifierDupQoS
  retain : Bool
  payload_is_utf8 : Bool
  message_expiry_interval : Option Nat
  topic_alias : Option Nat
  response_topic : Option ByteStr
  correlation_data : Option (List Nat)
  user_properties : List (ByteStr × ByteStr)
  subscription_identifiers : List Nat
  content_type : Option ByteStr
  payload : List Nat
  deriving DecidableEq, Repr

/-- The PUBREC packet (src/v5/pubrec.rs). -/
structure PubRec where
  packet_identifier : PacketIdentifier
  reason_code : PubRecReasonCode
  reason_string : Option ByteStr
  user_properties : List (ByteStr × ByteStr)
  deriving DecidableEq, Repr

/-- The PUBREL packet (src/v5/pubrel.rs). -/
structure PubRel where
  packet_identifier : PacketIdentifier
  reason_code : PubRelReasonCode
  reason_string : Option ByteStr
  user_properties : List (ByteStr × ByteStr)
  deriving DecidableEq, Repr

/-- The PUBCOMP packet (src/v5/pubcomp.rs). -/
structure PubComp where
  packet_identifier : PacketIdentifier
  reason_code : PubCompReasonCode
  reason_string : Option ByteStr
  user_properties : List (ByteStr × ByteStr)
  deriving DecidableEq, Repr

/-- The v5 SUBACK packet (src/v5/suback.rs). -/
structure SubAck where
  packet_identifier : PacketIdentifier
  reason_string : Option ByteStr
  user_properties : List (ByteStr × ByteStr)
  reason_codes : List SubscribeReasonCode
  deriving DecidableEq, Repr

/-- One subscription request of a v5 SUBSCRIBE (src/v5/subscribe.rs). -/
structure SubscribeTo where
  topic_filter : ByteStr
  maximum_qos : QoS
  no_local : Bool
  retain_as_published : Bool
  retain_handling : RetainHandling
  deriving DecidableEq, Repr

/-- The v5 SUBSCRIBE packet (src/v5/subscribe.rs). -/
structure Subscribe where
  packet_identifier : PacketIdentifier
  subscription_identifier : Option Nat
  user_properties : List (ByteStr × ByteStr)
  subscribe_to : List SubscribeTo
  deriving DecidableEq, Repr

/-- The v5 UNSUBACK packet (src/v5/unsuback.rs). -/
structure UnsubAck where
  packet_identifier : PacketIdentifier
  reason_string : Option ByteStr
  user_properties : List (ByteStr × ByteStr)
  reason_codes : List UnsubscribeReasonCode
  deriving DecidableEq, Repr

/-- The v5 UNSUBSCRIBE packet (src/v5/unsubscribe.rs). -/
structure Unsubscribe where
  packet_identifier : PacketIdentifier
  user_properties : List (ByteStr × ByteStr)
  unsubscribe_from : List ByteStr
  deriving DecidableEq, Repr

/-- Conversion of user-property pairs to Property values, shared by every
encode_properties! expansion. -/
def userPropertyList (userProperties : List (ByteStr × ByteStr)) : List Property :=
  userProperties.map (fun uv => Property.userProperty uv.1 uv.2)

/-- Auth::encode (src/v5/auth.rs). -/
def Auth.encode {σ : Type} (d : ByteSink σ) (x : Auth) (s : σ) : Except EncodeError σ :=
  let needVariableHeader := x.reason_code ≠ .success ∨ x.authentication_method.isSome ∨
    x.authentication_data.isSome ∨ x.reason_string.isSome ∨ x.user_properties ≠ []
  if needVariableHeader then
    match d.tryPutU8 s x.reason_code.toU8 with
    | .error e => .error e
    | .ok s =>
      Property.encodeAll d
        ((x.authentication_method.map Property.authenticationMethod).toList
          ++ (x.authentication_data.map Property.authenticationData).toList
          ++ (x.reason_string.map Property.reasonString).toList
          ++ userPropertyList x.user_properties) s
  else .ok s

/-- ConnAck::encode (src/v5/connack.rs). -/
def ConnAck.encode {σ : Type} (d : ByteSink σ) (x : ConnAck) (s : σ) :
    Except EncodeError σ :=
  let sessionPresent :=
    match x.return_code with
    | .success session_present => session_present
    | _ => false
  match d.tryPutU8 s (if sessionPresent then 0x01 else 0x00) with
  | .error e => .error e
  | .ok s =>
    match d.tryPutU8 s x.return_code.toU8 with
    | .error e => .error e
    | .ok s =>
      Property.encodeAll d
        ((x.session_expiry_interval.map Property.sessionExpiryInterval).toList
          ++ [Property.receiveMaximum x.receive_maximum]
          ++ [Property.maximumQoS x.maximum_qos]
          ++ [Property.retainAvailable x.retain_available]
          ++ (x.maximum_packet_size.map Property.maximumPacketSize).toList
          ++ (x.assigned_client_id.map Property.assignedClientIdentifier).toList
          ++ [Property.topicAliasMaximum x.topic_alias_maximum]
          ++ (x.reason_string.map Property.reasonString).toList
          ++ userPropertyList x.user_properties
          ++ [Property.wildcardSubscriptionAvailable x.wildcard_subscription_available]
          ++ [Property.sharedSubscriptionAvailable x.shared_subscription_available]
          ++ [Property.subscriptionIdentifierAvailable x.subscription_identifier_available]
          ++ (x.server_keep_alive.map Property.serverKeepAlive).toList
          ++ (x.response_information.map Property.responseInformation).toList
          ++ (x.server_reference.map Property.serverReference).toList
          ++ (x.authentication_method.map Property.authenticationMethod).toList
          ++ (x.authentication_data.map Property.authenticationData).toList) s

/-- v5::Connect::encode (src/v5/connect.rs). -/
def Connect.encode {σ : Type} (d : ByteSink σ) (x : Connect) (s : σ) :
    Except EncodeError σ :=
  match d.tryPutSlice s PROTOCOL_NAME with
  | .error e => .error e
  | .ok s =>
    match d.tryPutU8 s PROTOCOL_VERSION with
    | .error e => .error e
    | .ok s =>
      let connectFlags :=
        (if x.username.isSome then 0b10000000 else 0) |||
        (if x.password.isSome then 0b01000000 else 0) |||
        (match x.will with
          | some (will, _) =>
            0b00000100 ||| (if will.retain then 0b00100000 else 0) ||| (will.qos.toU8 <<< 3)
          | none => 0) |||
        (match x.client_id with
          | .serverGenerated | .idWithCleanSession _ => 0b00000010
          | .idWithExistingSession _ => 0)
      match d.tryPutU8 s connectFlags with
      | .error e => .error e
      | .ok s =>
        if 2 ^ 16 ≤ x.keep_alive then .error (.keepAliveTooHigh x.keep_alive)
        else
          match d.tryPutU16be s x.keep_alive with
          | .error e => .error e
          | .ok s =>
            match Property.encodeAll d
              ((x.session_expiry_interval.map Property.sessionExpiryInterval).toList
                ++ [Property.receiveMaximum x.receive_maximum]
                ++ (x.maximum_packet_size.map Property.maximumPacketSize).toList
                ++ [Property.topicAliasMaximum x.topic_alias_maximum]
                ++ [Property.requestResponseInformation x.request_response_information]
                ++ [Property.requestProblemInformation x.request_problem_information]
                ++ userPropertyList x.user_properties
                ++ (x.authentication_method.map Property.authenticationMethod).toList
                ++ (x.authentication_data.map Property.authenticationData).toList) s with
            | .error e => .error e
            | .ok s =>
              let clientIdResult : Except EncodeError σ :=
                match x.client_id with
                | .serverGenerated => d.tryPutSlice s ByteStr.EMPTY
                | .idWithCleanSession clientId | .idWithExistingSession clientId =>
                  ByteStr.encode d clientId s
              match clientIdResult with
              | .error e => .error e
              | .ok s =>
                let willResult : Except EncodeError σ :=
                  match x.will with
                  | none => .ok s
                  | some (will, willDelayInterval) =>
                    match Property.encodeAll d
                      ([Property.willDelayInterval willDelayInterval]
                        ++ [Property.payloadIsUtf8 will.payload_is_utf8]
                        ++ (will.message_expiry_interval.map
                              Property.messageExpiryInterval).toList
                        ++ (will.topic_alias.map Property.topicAlias).toList
                        ++ (will.content_type.map Property.contentType).toList
                        ++ (will.response_topic.map Property.responseTopic).toList
                        ++ (will.correlation_data.map Property.correlationData).toList
                        ++ userPropertyList will.user_properties) s with
                    | .error e => .error e
                    | .ok s =>
                      match ByteStr.encode d will.topic_name s with
                      | .error e => .error e
                      | .ok s =>
                        if 2 ^ 16 ≤ will.payload.length then
                          .error (.willTooLarge will.payload.length)
                        else
                          match d.tryPutU16be s will.payload.length with
                          | .error e => .error e
                          | .ok s => d.tryPutBytes s will.payload
                match willResult with
                | .error e => .error e
                | .ok s =>
                  let usernameResult : Except EncodeError σ :=
                    match x.username with
                    | none => .ok s
                    | some username => ByteStr.encode d username s
                  match usernameResult with
                  | .error e => .error e
                  | .ok s =>
                    match x.password with
                    | none => .ok s
                    | some password => ByteStr.encode d password s

/-- Disconnect::encode (src/v5/disconnect.rs). -/
def Disconnect.encode {σ : Type} (d : ByteSink σ) (x : Disconnect) (s : σ) :
    Except EncodeError σ :=
  let needVariableHeader := x.reason_code ≠ .normal ∨ x.session_expiry_interval.isSome ∨
    x.reason_string.isSome ∨ x.user_properties ≠ [] ∨ x.server_reference.isSome
  if needVariableHeader then
    match d.tryPutU8 s x.reason_code.toU8 with
    | .error e => .error e
    | .ok s =>
      Property.encodeAll d
        ((x.session_expiry_interval.map Property.sessionExpiryInterval).toList
          ++ (x.reason_string.map Property.reasonString).toList
          ++ userPropertyList x.user_properties
          ++ (x.server_reference.map Property.serverReference).toList) s
  else .ok s

/-- PubAck::encode (src/v5/puback.rs). -/
def PubAck.encode {σ : Type} (d : ByteSink σ) (x : PubAck) (s : σ) :
    Except EncodeError σ :=
  match d.tryPutPacketIdentifier s x.packet_identifier with
  | .error e => .error e
  | .ok s =>
    let needVariableHeader := x.reason_code ≠ .success ∨ x.reason_string.isSome ∨
      x.user_properties ≠ []
    if needVariableHeader then
      match d.tryPutU8 s x.reason_code.toU8 with
      | .error e => .error e
      | .ok s =>
        Property.encodeAll d
          ((x.reason_string.map Property.reasonString).toList
            ++ userPropertyList x.user_properties) s
    else .ok s

/-- PubRec::encode (src/v5/pubrec.rs). -/
def PubRec.encode {σ : Type} (d : ByteSink σ) (x : PubRec) (s : σ) :
    Except EncodeError σ :=
  match d.tryPutPacketIdentifier s x.packet_identifier with
  | .error e => .error e
  | .ok s =>
    let needVariableHeader := x.reason_code ≠ .success ∨ x.reason_string.isSome ∨
      x.user_properties ≠ []
    if needVariableHeader then
      match d.tryPutU8 s x.reason_code.toU8 with
      | .error e => .error e
      | .ok s =>
        Property.encodeAll d
          ((x.reason_string.map Property.reasonString).toList
            ++ userPropertyList x.user_properties) s
    else .ok s

/-- PubRel::encode (src/v5/pubrel.rs). -/
def PubRel.encode {σ : Type} (d : ByteSink σ) (x : PubRel) (s : σ) :
    Except EncodeError σ :=
  match d.tryPutPacketIdentifier s x.packet_identifier with
  | .error e => .error e
  | .ok s =>
    let needVariableHeader := x.reason_code ≠ .success ∨ x.reason_string.isSome ∨
      x.user_properties ≠ []
    if needVariableHeader then
      match d.tryPutU8 s x.reason_code.toU8 with
      | .error e => .error e
      | .ok s =>
        Property.encodeAll d
          ((x.reason_string.map Property.reasonString).toList
            ++ userPropertyList x.user_properties) s
    else .ok s

/-- PubComp::encode (src/v5/pubcomp.rs). -/
def PubComp.encode {σ : Type} (d : ByteSink σ) (x : PubComp) (s : σ) :
    Except EncodeError σ :=
  match d.tryPutPacketIdentifier s x.packet_identifier with
  | .error e => .error e
  | .ok s =>
    let needVariableHeader := x.reason_code ≠ .success ∨ x.reason_string.isSome ∨
      x.user_properties ≠ []
    if needVariableHeader then
      match d.tryPutU8 s x.reason_code.toU8 with
      | .error e => .error e
      | .ok s =>
        Property.encodeAll d
          ((x.reason_string.map Property.reasonString).toList
            ++ userPropertyList x.user_properties) s
    else .ok s

/-- v5::Publish::encode (src/v5/publish.rs). -/
def Publish.encode {σ : Type} (d : ByteSink σ) (x : Publish) (s : σ) :
    Except EncodeError σ :=
  match ByteStr.encode d x.topic_name s with
  | .error e => .error e
  | .ok s =>
    let pidResult : Except EncodeError σ :=
      match x.packet_identifier_dup_qos with
      | .atMostOnce => .ok s
      | .atLeastOnce packetIdentifier _ | .exactlyOnce packetIdentifier _ =>
        d.tryPutPacketIdentifier s packetIdentifier
    match pidResult with
    | .error e => .error e
    | .ok s =>
      match Property.encodeAll d
        ([Property.payloadIsUtf8 x.payload_is_utf8]
          ++ (x.message_expiry_interval.map Property.messageExpiryInterval).toList
          ++ (x.topic_alias.map Property.topicAlias).toList
          ++ (x.response_topic.map Property.responseTopic).toList
          ++ (x.correlation_data.map Property.correlationData).toList
          ++ userPropertyList x.user_properties
          ++ x.subscription_identifiers.map Property.subscriptionIdentifier
          ++ (x.content_type.map Property.contentType).toList) s with
      | .error e => .error e
      | .ok s => d.tryPutBytes s x.payload

/-- v5::SubAck::encode (src/v5/suback.rs). -/
def SubAck.encode {σ : Type} (d : ByteSink σ) (x : SubAck) (s : σ) :
    Except EncodeError σ :=
  match d.tryPutPacketIdentifier s x.packet_identifier with
  | .error e => .error e
  | .ok s =>
    match Property.encodeAll d
      ((x.reason_string.map Property.reasonString).toList
        ++ userPropertyList x.user_properties) s with
    | .error e => .error e
    | .ok s => encodeEach (fun rc s => d.tryPutU8 s rc.toU8) x.reason_codes s

/-- v5::Subscribe::encode (src/v5/subscribe.rs). -/
def Subscribe.encode {σ : Type} (d : ByteSink σ) (x : Subscribe) (s : σ) :
    Except EncodeError σ :=
  match d.tryPutPacketIdentifier s x.packet_identifier with
  | .error e => .error e
  | .ok s =>
    match Property.encodeAll d
      ((x.subscription_identifier.map Property.subscriptionIdentifier).toList
        ++ userPropertyList x.user_properties) s with
    | .error e => .error e
    | .ok s =>
      encodeEach
        (fun (st : SubscribeTo) s =>
          match ByteStr.encode d st.topic_filter s with
          | .error e => .error e
          | .ok s =>
            let subscriptionOptions :=
              st.maximum_qos.toU8 |||
              (if st.no_local then 0b00000100 else 0) |||
              (if st.retain_as_published then 0b00001000 else 0) |||
              (st.retain_handling.toU8 <<< 4)
            d.tryPutU8 s subscriptionOptions)
        x.subscribe_to s

/-- v5::UnsubAck::encode (src/v5/unsuback.rs). -/
def UnsubAck.encode {σ : Type} (d : ByteSink σ) (x : UnsubAck) (s : σ) :
    Except EncodeError σ :=
  match d.tryPutPacketIdentifier s x.packet_identifier with
  | .error e => .error e
  | .ok s =>
    match Property.encodeAll d
      ((x.reason_string.map Property.reasonString).toList
        ++ userPropertyList x.user_properties) s with
    | .error e => .error e
    | .ok s => encodeEach (fun rc s => d.tryPutU8 s rc.toU8) x.reason_codes s

/-- v5::Unsubscribe::encode (src/v5/unsubscribe.rs). -/
def Unsubscribe.encode {σ : Type} (d : ByteSink σ) (x : Unsubscribe) (s : σ) :
    Except EncodeError σ :=
  match d.tryPutPacketIdentifier s x.packet_identifier with
  | .error e => .error e
  | .ok s =>
    match Property.encodeAll d (userPropertyList x.user_properties) s with
    | .error e => .error e
    | .ok s => encodeEach (fun (uf : ByteStr) s => ByteStr.encode d uf s) x.unsubscribe_from s

/-- The v5 packet union (Packet in src/v5/mod.rs). -/
inductive Packet where
  | auth (packet : Auth)
  | connAck (packet : ConnAck)
  | connect (packet : Connect)
  | disconnect (packet : Disconnect)
  | pingReq
  | pingResp
  | pubAck (packet : PubAck)
  | pubComp (packet : PubComp)
  | publish (packet : Publish)
  | pubRec (packet : PubRec)
  | pubRel (packet : PubRel)
  | subAck (packet : SubAck)
  | subscribe (packet : Subscribe)
  | unsubAck (packet : UnsubAck)
  | unsubscribe (packet : Unsubscribe)
  deriving DecidableEq, Repr

/-- The PACKET_TYPE constant of each v5 packet. -/
def Packet.packetType : Packet → Nat
  | .auth _ => 0xF0
  | .connAck _ => 0x20
  | .connect _ => 0x10
  | .disconnect _ => 0xE0
  | .pingReq => 0xC0
  | .pingResp => 0xD0
  | .pubAck _ => 0x40
  | .pubComp _ => 0x70
  | .publish _ => 0x30
  | .pubRec _ => 0x50
  | .pubRel _ => 0x60
  | .subAck _ => 0x90
  | .subscribe _ => 0x80
  | .unsubAck _ => 0xB0
  | .unsubscribe _ => 0xA0

/-- The flag nibble passed to encode_inner by v5::encode: 2 for PUBREL,
SUBSCRIBE and UNSUBSCRIBE, the computed dup/QoS/retain nibble for PUBLISH,
and 0 otherwise. -/
def Packet.encodeFlags : Packet → Nat
  | .publish packet =>
    let flags :=
      match packet.packet_identifier_dup_qos with
      | .atMostOnce => 0x00
      | .atLeastOnce _ true => 0x0A
      | .atLeastOnce _ false => 0x02
      | .exactlyOnce _ true => 0x0C
      | .exactlyOnce _ false => 0x04
    if packet.retain then flags ||| 0x01 else flags
  | .pubRel _ => 0x02
  | .subscribe _ => 0x02
  | .unsubscribe _ => 0x02
  | _ => 0x00

/-- The body encoder of a v5 packet: the PacketMeta::encode implementation
selected by v5::encode's dispatch. -/
def encodeBody {σ : Type} (d : ByteSink σ) (p : Packet) (s : σ) : Except EncodeError σ :=
  match p with
  | .auth packet => Auth.encode d packet s
  | .connAck packet => ConnAck.encode d packet s
  | .connect packet => Connect.encode d packet s
  | .disconnect packet => Disconnect.encode d packet s
  | .pingReq => .ok s
  | .pingResp => .ok s
  | .pubAck packet => PubAck.encode d packet s
  | .pubComp packet => PubComp.encode d packet s
  | .publish packet => Publish.encode d packet s
  | .pubRec packet => PubRec.encode d packet s
  | .pubRel packet => PubRel.encode d packet s
  | .subAck packet => SubAck.encode d packet s
  | .subscribe packet => Subscribe.encode d packet s
  | .unsubAck packet => UnsubAck.encode d packet s
  | .unsubscribe packet => Unsubscribe.encode d packet s

/-- v5::encode / encode_inner (src/v5/mod.rs): count the body bytes with
the ByteCounter sink, emit the fixed-header byte and the remaining-length
varint, then emit the body. -/
def encode {σ : Type} (d : ByteSink σ) (p : Packet) (s : σ) : Except EncodeError σ :=
  match encodeBody counterSink p 0 with
  | .error e => .error e
  | .ok bodyLen =>
    match d.tryPutU8 s (p.packetType ||| p.encodeFlags) with
    | .error e => .error e
    | .ok s =>
      match encodeRemainingLength d bodyLen s with
      | .error e => .error e
      | .ok s => encodeBody d p s

end V5

namespace V3

/-- The reason a v3 connection was refused (src/v3.rs). -/
inductive ConnectionRefusedReason where
  | unacceptableProtocolVersion
  | identifierRejected
  | serverUnavailable
  | badUserNameOrPassword
  | notAuthorized
  | other (code : Nat)
  deriving DecidableEq, Repr

/-- The v3 connect return code (src/v3.rs). -/
inductive ConnectReturnCode where
  | accepted (session_present : Bool)
  | refused (reason : ConnectionRefusedReason)
  deriving DecidableEq, Repr

/-- From of ConnectReturnCode for u8 (src/v3.rs). -/
def ConnectReturnCode.toU8 : ConnectReturnCode → Nat
  | .accepted _ => 0x00
  | .refused .unacceptableProtocolVersion => 0x01
  | .refused .identifierRejected => 0x02
  | .refused .serverUnavailable => 0x03
  | .refused .badUserNameOrPassword => 0x04
  | .refused .notAuthorized => 0x05
  | .refused (.other code) => code

/-- The v3 CONNACK packet (src/v3.rs). -/
structure ConnAck where
  return_code : ConnectReturnCode
  deriving DecidableEq, Repr

/-- Packet identifier, dup flag and QoS of a v3 PUBLISH (src/v3.rs). -/
inductive PacketIdentifierDupQoS where
  | atMostOnce
  | atLeastOnce (packetIdentifier : PacketIdentifier) (dup : Bool)
  | exactlyOnce (packetIdentifier : PacketIdentifier) (dup : Bool)
  deriving DecidableEq, Repr

/-- The v3 PUBLISH packet (src/v3.rs). -/
structure Publish where
  packet_identifier_dup_qos : PacketIdentifierDupQoS
  retain : Bool
  topic_name : ByteStr
  payload : List Nat
  deriving DecidableEq, Repr

/-- QoS returned in a v3 SUBACK (SubAckQos in src/v3.rs). -/
inductive SubAckQos where
  | success (qos : QoS)
  | failure
  deriving DecidableEq, Repr

/-- From of SubAckQos for u8. -/
def SubAckQos.toU8 : SubAckQos → Nat
  | .success qos => qos.toU8
  | .failure => 0x80

/-- The v3 SUBACK packet (src/v3.rs). -/
structure SubAck where
  packet_identifier : PacketIdentifier
  qos : List SubAckQos
  deriving DecidableEq, Repr

/-- One subscription request of a v3 SUBSCRIBE (src/v3.rs). -/
structure SubscribeTo where
  topic_filter : ByteStr
  qos : QoS
  deriving DecidableEq, Repr

/-- The v3 SUBSCRIBE packet (src/v3.rs). -/
structure Subscribe where
  packet_identifier : PacketIdentifier
  subscribe_to : List SubscribeTo
  deriving DecidableEq, Repr

/-- The v3 UNSUBSCRIBE packet (src/v3.rs). -/
structure Unsubscribe where
  packet_identifier : PacketIdentifier
  unsubscribe_from : List ByteStr
  deriving DecidableEq, Repr

/-- v3::ConnAck::encode (src/v3.rs). -/
def ConnAck.encode {σ : Type} (d : ByteSink σ) (x : ConnAck) (s : σ) :
    Except EncodeError σ :=
  let sessionPresent :=
    match x.return_code with
    | .accepted session_present => session_present
    | _ => false
  match d.tryPutU8 s (if sessionPresent then 0x01 else 0x00) with
  | .error e => .error e
  | .ok s => d.tryPutU8 s x.return_code.toU8

/-- v3::Connect::encode (src/v3.rs). -/
def Connect.encode {σ : Type} (d : ByteSink σ) (x : Connect) (s : σ) :
    Except EncodeError σ :=
  match d.tryPutSlice s PROTOCOL_NAME with
  | .error e => .error e
  | .ok s =>
    match d.tryPutU8 s PROTOCOL_LEVEL with
    | .error e => .error e
    | .ok s =>
      let connectFlags :=
        (if x.username.isSome then 0b10000000 else 0) |||
        (if x.password.isSome then 0b01000000 else 0) |||
        (match x.will with
          | some will =>
            0b00000100 ||| (if will.retain then 0b00100000 else 0) ||| (will.qos.toU8 <<< 3)
          | none => 0) |||
        (match x.client_id with
          | .serverGenerated | .idWithCleanSession _ => 0b00000010
          | .idWithExistingSession _ => 0)
      match d.tryPutU8 s connectFlags with
      | .error e => .error e
      | .ok s =>
        if 2 ^ 16 ≤ x.keep_alive then .error (.keepAliveTooHigh x.keep_alive)
        else
          match d.tryPutU16be s x.keep_alive with
          | .error e => .error e
          | .ok s =>
            let clientIdResult : Except EncodeError σ :=
              match x.client_id with
              | .serverGenerated => d.tryPutSlice s ByteStr.EMPTY
              | .idWithCleanSession clientId | .idWithExistingSession clientId =>
                ByteStr.encode d clientId s
            match clientIdResult with
            | .error e => .error e
            | .ok s =>
              let willResult : Except EncodeError σ :=
                match x.will with
                | none => .ok s
                | some will =>
                  match ByteStr.encode d will.topic_name s with
                  | .error e => .error e
                  | .ok s =>
                    if 2 ^ 16 ≤ will.payload.length then
                      .error (.willTooLarge will.payload.length)
                    else
                      match d.tryPutU16be s will.payload.length with
                      | .error e => .error e
                      | .ok s => d.tryPutBytes s will.payload
              match willResult with
              | .error e => .error e
              | .ok s =>
                let usernameResult : Except EncodeError σ :=
                  match x.username with
                  | none => .ok s
                  | some username => ByteStr.encode d username s
                match usernameResult with
                | .error e => .error e
                | .ok s =>
                  match x.password with
                  | none => .ok s
                  | some password => ByteStr.encode d password s

/-- v3::Publish::encode (src/v3.rs). -/
def Publish.encode {σ : Type} (d : ByteSink σ) (x : Publish) (s : σ) :
    Except EncodeError σ :=
  match ByteStr.encode d x.topic_name s with
  | .error e => .error e
  | .ok s =>
    let pidResult : Except EncodeError σ :=
      match x.packet_identifier_dup_qos with
      | .atMostOnce => .ok s
      | .atLeastOnce packetIdentifier _ | .exactlyOnce packetIdentifier _ =>
        d.tryPutPacketIdentifier s packetIdentifier
    match pidResult with
    | .error e => .error e
    | .ok s => d.tryPutBytes s x.payload

/-- v3::SubAck::encode (src/v3.rs). -/
def SubAck.encode {σ : Type} (d : ByteSink σ) (x : SubAck) (s : σ) :
    Except EncodeError σ :=
  match d.tryPutPacketIdentifier s x.packet_identifier with
  | .error e => .error e
  | .ok s => encodeEach (fun (q : SubAckQos) s => d.tryPutU8 s q.toU8) x.qos s

/-- v3::Subscribe::encode (src/v3.rs). -/
def Subscribe.encode {σ : Type} (d : ByteSink σ) (x : Subscribe) (s : σ) :
    Except EncodeError σ :=
  match d.tryPutPacketIdentifier s x.packet_identifier with
  | .error e => .error e
  | .ok s =>
    encodeEach
      (fun (st : SubscribeTo) s =>
        match ByteStr.encode d st.topic_filter s with
        | .error e => .error e
        | .ok s => d.tryPutU8 s st.qos.toU8)
      x.subscribe_to s

/-- v3::Unsubscribe::encode (src/v3.rs). -/
def Unsubscribe.encode {σ : Type} (d : ByteSink σ) (x : Unsubscribe) (s : σ) :
    Except EncodeError σ :=
  match d.tryPutPacketIdentifier s x.packet_identifier with
  | .error e => .error e
  | .ok s => encodeEach (fun (uf : ByteStr) s => ByteStr.encode d uf s) x.unsubscribe_from s

/-- The v3 packet union (Packet in src/v3.rs).  The packet-identifier-only
acknowledgement packets carry just their identifier. -/
inductive Packet where
  | connAck (packet : ConnAck)
  | connect (packet : Connect)
  | disconnect
  | pingReq
  | pingResp
  | pubAck (packetIdentifier : PacketIdentifier)
  | pubComp (packetIdentifier : PacketIdentifier)
  | publish (packet : Publish)
  | pubRec (packetIdentifier : PacketIdentifier)
  | pubRel (packetIdentifier : PacketIdentifier)
  | subAck (packet : SubAck)
  | subscribe (packet : Subscribe)
  | unsubAck (packetIdentifier : PacketIdentifier)
  | unsubscribe (packet : Unsubscribe)
  deriving DecidableEq, Repr

/-- The PACKET_TYPE constant of each v3 packet. -/
def Packet.packetType : Packet → Nat
  | .connAck _ => 0x20
  | .connect _ => 0x10
  | .disconnect => 0xE0
  | .pingReq => 0xC0
  | .pingResp => 0xD0
  | .pubAck _ => 0x40
  | .pubComp _ => 0x70
  | .publish _ => 0x30
  | .pubRec _ => 0x50
  | .pubRel _ => 0x60
  | .subAck _ => 0x90
  | .subscribe _ => 0x80
  | .unsubAck _ => 0xB0
  | .unsubscribe _ => 0xA0

/-- The flag nibble passed to encode_inner by v3::encode. -/
def Packet.encodeFlags : Packet → Nat
  | .publish packet =>
    let flags :=
      match packet.packet_identifier_dup_qos with
      | .atMostOnce => 0x00
      | .atLeastOnce _ true => 0x0A
      | .atLeastOnce _ false => 0x02
      | .exactlyOnce _ true => 0x0C
      | .exactlyOnce _ false => 0x04
    if packet.retain then flags ||| 0x01 else flags
  | .pubRel _ => 0x02
  | .subscribe _ => 0x02
  | .unsubscribe _ => 0x02
  | _ => 0x00

/-- The body encoder of a v3 packet: the PacketMeta::encode implementation
selected by v3::encode's dispatch. -/
def encodeBody {σ : Type} (d : ByteSink σ) (p : Packet) (s : σ) : Except EncodeError σ :=
  match p with
  | .connAck packet => ConnAck.encode d packet s
  | .connect packet => Connect.encode d packet s
  | .disconnect => .ok s
  | .pingReq => .ok s
  | .pingResp => .ok s
  | .pubAck packetIdentifier => d.tryPutPacketIdentifier s packetIdentifier
  | .pubComp packetIdentifier => d.tryPutPacketIdentifier s packetIdentifier
  | .publish packet => Publish.encode d packet s
  | .pubRec packetIdentifier => d.tryPutPacketIdentifier s packetIdentifier
  | .pubRel packetIdentifier => d.tryPutPacketIdentifier s packetIdentifier
  | .subAck packet => SubAck.encode d packet s
  | .subscribe packet => Subscribe.encode d packet s
  | .unsubAck packetIdentifier => d.tryPutPacketIdentifier s packetIdentifier
  | .unsubscribe packet => Unsubscribe.encode d packet s

/-- v3::encode / encode_inner (src/v3.rs): count the body bytes with the
ByteCounter sink, emit the fixed-header byte and the remaining-length
varint, then emit the body. -/
def encode {σ : Type} (d : ByteSink σ) (p : Packet) (s : σ) : Except EncodeError σ :=
  match encodeBody counterSink p 0 with
  | .error e => .error e
  | .ok bodyLen =>
    match d.tryPutU8 s (p.packetType ||| p.encodeFlags) with
    | .error e => .error e
    | .ok s =>
      match encodeRemainingLength d bodyLen s with
      | .error e => .error e
      | .ok s => encodeBody d p s

end V3

/-- The version-discriminated CONNECT union (Connect in src/lib.rs). -/
inductive Connect where
  | v3 (connect : V3.Connect)
  | v5 (connect : V5.Connect)
  deriving DecidableEq, Repr

/-- Connect::decode (src/lib.rs): reads the protocol name and level via
decode_connect_start, then hands the rest to the decoder selected by the
level byte: 0x04 selects v3, 0x05 selects v5, anything else is an
unrecognized protocol version. -/
def Connect.decode (flags : Nat) (src : List Nat) :
    Except DecodeError (Connect × List Nat) :=
  match decodeConnectStart flags src with
  | .error e => .error e
  | .ok (protocolVersion, src) =>
    if protocolVersion = V3.PROTOCOL_LEVEL then
      match V3.Connect.decodeRest src with
      | .error e => .error e
      | .ok (connect, src) => .ok (.v3 connect, src)
    else if protocolVersion = V5.PROTOCOL_VERSION then
      match V5.Connect.decodeRest src with
      | .error e => .error e
      | .ok (connect, src) => .ok (.v5 connect, src)
    else .error (.unrecognizedProtocolVersion protocolVersion)

/-- A minimal v5 CONNECT value: server-generated client id, zero
keep-alive, every property at its default, no will, username or
password. -/
def connectMinimal : V5.Connect :=
  { username := none, password := none, will := none,
    client_id := .serverGenerated, keep_alive := 0,
    session_expiry_interval := none, receive_maximum := 0xFFFF,
    maximum_packet_size := none, topic_alias_maximum := 0,
    request_response_information := false, request_problem_information := true,
    user_properties := [], authentication_method := none,
    authentication_data := none }

/-- Shortest-form remaining-length bytes of a value below 2^28: base-128
digits, least significant first, with the continuation bit set on all but
the last byte. -/
def rlBytes (n : Nat) : List Nat :=
  if n < 128 then [n % 128]
  else if n < 16384 then [n % 128 + 128, n / 128 % 128]
  else if n < 2097152 then [n % 128 + 128, n / 128 % 128 + 128, n / 128 / 128 % 128]
  else [n % 128 + 128, n / 128 % 128 + 128, n / 128 / 128 % 128 + 128,
    n / 128 / 128 / 128 % 128]

/-- Forward simulation between two byte sinks: related states stay related
across every successful try_put_slice, and success on the first sink
implies success on the second.  Instantiated below with the Owned writer
and the ByteCounter to relate the two passes of body encoding. -/
def PutSim {σ₁ σ₂ : Type} (R : σ₁ → σ₂ → Prop) (d₁ : ByteSink σ₁) (d₂ : ByteSink σ₂) :
    Prop :=
  ∀ (s₁ : σ₁) (s₂ : σ₂) (bs : List Nat) (t₁ : σ₁), R s₁ s₂ →
    d₁.tryPutSlice s₁ bs = .ok t₁ → ∃ t₂, d₂.tryPutSlice s₂ bs = .ok t₂ ∧ R t₁ t₂

/-- The relation between an Owned write pass and a ByteCounter pass: the
counter equals the number of bytes filled beyond the base length. -/
def lenRel (base : Nat) (ow : Owned) (count : Nat) : Prop :=
  ow.filled.length = base + count

theorem land127 (a : Nat) : a &&& 127 = a % 128 := Nat.and_pow_two_sub_one_eq_mod a 7

theorem mod_lor_cont (a : Nat) : a % 128 ||| 128 = a % 128 + 128 := by
  have h : a % 128 < 2 ^ 7 := by omega
  have h2 := Nat.mul_add_lt_is_or h 1
  rw [Nat.or_comm]
  simpa [Nat.add_comm] using h2.symm

theorem and128_of_lt {a : Nat} (h : a < 128) : a &&& 128 = 0 := by
  have h2 := Nat.and_two_pow a 7
  rw [Nat.testBit_lt_two_pow h] at h2
  simpa using h2

theorem and128_of_cont (a : Nat) : (a % 128 + 128) &&& 128 = 128 := by
  have h2 := Nat.and_two_pow (a % 128 + 128) 7
  have ht : (a % 128 + 128).testBit 7 = true := by
    rw [Nat.testBit_to_div_mod]
    have hd : (a % 128 + 128) / 128 = 1 := by omega
    simp [hd]
  rw [ht] at h2
  simpa using h2

theorem lor_shift_add (r d k : Nat) (h : r < 2 ^ k) : r ||| d <<< k = 2 ^ k * d + r := by
  rw [Nat.shiftLeft_eq, Nat.mul_comm d (2 ^ k), Nat.or_comm]
  exact (Nat.mul_add_lt_is_or h d).symm

theorem ownedPutU8 (o : Owned) (b : Nat) (h : 1 ≤ o.unfilled) :
    ownedSink.tryPutU8 o b = .ok ⟨o.filled ++ [b], o.unfilled - 1⟩ := by
  simp only [ownedSink, ByteSink.tryPutU8]
  rw [if_pos (by simpa using h)]
  rfl

theorem encodeGoStepOk {σ : Type} (d : ByteSink σ) (orig wl item : Nat) (s t : σ)
    (hput : d.tryPutU8 s
      (if 0 < item >>> 7 then (item &&& 0x7F) ||| 0x80 else item &&& 0x7F) = .ok t) :
    encodeRemainingLengthGo d orig (wl + 1) item s =
      if item >>> 7 = 0 then .ok t
      else if wl = 0 then .error (.remainingLengthTooHigh orig)
      else encodeRemainingLengthGo d orig wl (item >>> 7) t := by
  conv_lhs => simp only [encodeRemainingLengthGo]
  rw [hput]

theorem decodeGoCons (b : Nat) (rest : List Nat) (result numBytesRead : Nat) :
    decodeRemainingLengthGo (b :: rest) result numBytesRead =
      (if b &&& 0x80 = 0 then
        .ok (some (result ||| ((b &&& 0x7F) <<< (numBytesRead * 7))), rest)
      else if numBytesRead + 1 = 4 then .error .remainingLengthTooHigh
      else decodeRemainingLengthGo rest (result ||| ((b &&& 0x7F) <<< (numBytesRead * 7)))
        (numBytesRead + 1)) := rfl

theorem c6_encode_case1 (n : Nat) (h : n < 128) :
    encodeRemainingLength ownedSink n ⟨[], 4⟩ = .ok ⟨[n % 128], 3⟩ := by
  have e1 : n >>> 7 = n / 128 := Nat.shiftRight_eq_div_pow n 7
  have hz : n / 128 = 0 := by omega
  unfold encodeRemainingLength
  rw [show (4 : Nat) = 3 + 1 from rfl,
    encodeGoStepOk _ _ _ _ _ _ (ownedPutU8 ⟨[], 4⟩ _ (by norm_num))]
  rw [e1, hz]
  simp [land127]

theorem c6_encode_case2 (n : Nat) (h1 : 128 ≤ n) (h2 : n < 16384) :
    encodeRemainingLength ownedSink n ⟨[], 4⟩ =
      .ok ⟨[n % 128 + 128, n / 128 % 128], 2⟩ := by
  have e1 : n >>> 7 = n / 128 := Nat.shiftRight_eq_div_pow n 7
  have e2 : (n / 128) >>> 7 = n / 128 / 128 := Nat.shiftRight_eq_div_pow _ 7
  unfold encodeRemainingLength
  rw [show (4 : Nat) = 3 + 1 from rfl,
    encodeGoStepOk _ _ _ _ _ _ (ownedPutU8 ⟨[], 4⟩ _ (by norm_num))]
  rw [e1, if_neg (by omega : ¬ n / 128 = 0), if_neg (by omega : ¬ (3 : Nat) = 0)]
  rw [show (3 : Nat) = 2 + 1 from rfl,
    encodeGoStepOk _ _ _ _ _ _ (ownedPutU8 _ _ (by norm_num))]
  rw [e2, if_pos (by omega : n / 128 / 128 = 0)]
  rw [if_pos (by omega : 0 < n / 128), if_neg (by omega : ¬ 0 < n / 128 / 128)]
  rw [land127, mod_lor_cont, land127]
  simp

theorem c6_decode_case2 (n : Nat) (h1 : 128 ≤ n) (h2 : n < 16384) :
    decodeRemainingLength [n % 128 + 128, n / 128 % 128] = .ok (some n, []) := by
  unfold decodeRemainingLength
  rw [decodeGoCons, if_neg (by simp [and128_of_cont] : ¬ ((n % 128 + 128) &&& 128 = 0)),
    if_neg (by omega : ¬ (0 + 1 = 4))]
  rw [decodeGoCons, if_pos (by simp [and128_of_lt (by omega : n / 128 % 128 < 128)])]
  simp only [land127, Nat.zero_or, Nat.zero_mul, Nat.shiftLeft_zero, Nat.one_mul,
    Nat.zero_add]
  rw [show (n % 128 + 128) % 128 = n % 128 by omega,
    show n / 128 % 128 % 128 = n / 128 % 128 by omega]
  rw [lor_shift_add _ _ _ (by omega : n % 128 < 2 ^ 7)]
  rw [show 2 ^ 7 * (n / 128 % 128) + n % 128 = n by omega]

theorem c6_decode_case1 (n : Nat) (h : n < 128) :
    decodeRemainingLength [n % 128] = .ok (some n, []) := by
  unfold decodeRemainingLength
  rw [decodeGoCons, if_pos (by simp [and128_of_lt (by omega : n % 128 < 128)])]
  simp only [land127, Nat.zero_or, Nat.zero_mul, Nat.shiftLeft_zero]
  rw [show n % 128 % 128 = n by omega]

theorem c6_encode_case3 (n : Nat) (h1 : 16384 ≤ n) (h2 : n < 2097152) :
    encodeRemainingLength ownedSink n ⟨[], 4⟩ =
      .ok ⟨[n % 128 + 128, n / 128 % 128 + 128, n / 128 / 128 % 128], 1⟩ := by
  have e1 : n >>> 7 = n / 128 := Nat.shiftRight_eq_div_pow n 7
  have e2 : (n / 128) >>> 7 = n / 128 / 128 := Nat.shiftRight_eq_div_pow _ 7
  have e3 : (n / 128 / 128) >>> 7 = n / 128 / 128 / 128 := Nat.shiftRight_eq_div_pow _ 7
  unfold encodeRemainingLength
  rw [show (4 : Nat) = 3 + 1 from rfl,
    encodeGoStepOk _ _ _ _ _ _ (ownedPutU8 ⟨[], 4⟩ _ (by norm_num))]
  rw [e1, if_neg (by omega : ¬ n / 128 = 0), if_neg (by omega : ¬ (3 : Nat) = 0)]
  rw [show (3 : Nat) = 2 + 1 from rfl,
    encodeGoStepOk _ _ _ _ _ _ (ownedPutU8 _ _ (by norm_num))]
  rw [e2, if_neg (by omega : ¬ n / 128 / 128 = 0), if_neg (by omega : ¬ (2 : Nat) = 0)]
  rw [show (2 : Nat) = 1 + 1 from rfl,
    encodeGoStepOk _ _ _ _ _ _ (ownedPutU8 _ _ (by norm_num))]
  rw [e3, if_pos (by omega : n / 128 / 128 / 128 = 0)]
  rw [if_pos (by omega : 0 < n / 128), if_pos (by omega : 0 < n / 128 / 128),
    if_neg (by omega : ¬ 0 < n / 128 / 128 / 128)]
  rw [land127, mod_lor_cont, land127, mod_lor_cont, land127]
  simp

theorem c6_decode_case3 (n : Nat) (h1 : 16384 ≤ n) (h2 : n < 2097152) :
    decodeRemainingLength [n % 128 + 128, n / 128 % 128 + 128, n / 128 / 128 % 128] =
      .ok (some n, []) := by
  unfold decodeRemainingLength
  rw [decodeGoCons, if_neg (by simp [and128_of_cont] : ¬ ((n % 128 + 128) &&& 128 = 0)),
    if_neg (by omega : ¬ (0 + 1 = 4))]
  rw [decodeGoCons,
    if_neg (by simp [and128_of_cont] : ¬ ((n / 128 % 128 + 128) &&& 128 = 0)),
    if_neg (by omega : ¬ (0 + 1 + 1 = 4))]
  rw [decodeGoCons,
    if_pos (by simp [and128_of_lt (by omega : n / 128 / 128 % 128 < 128)])]
  simp only [land127, Nat.zero_or, Nat.zero_mul, Nat.shiftLeft_zero, Nat.zero_add,
    Nat.one_mul]
  rw [show (n % 128 + 128) % 128 = n % 128 by omega,
    show (n / 128 % 128 + 128) % 128 = n / 128 % 128 by omega,
    show n / 128 / 128 % 128 % 128 = n / 128 / 128 % 128 by omega]
  rw [lor_shift_add _ _ _ (by omega : n % 128 < 2 ^ 7)]
  rw [show (1 + 1) * 7 = 14 by norm_num]
  rw [lor_shift_add _ _ _ (by omega : 2 ^ 7 * (n / 128 % 128) + n % 128 < 2 ^ 14)]
  rw [show 2 ^ 14 * (n / 128 / 128 % 128) + (2 ^ 7 * (n / 128 % 128) + n % 128) = n by omega]

theorem c6_encode_case4 (n : Nat) (h1 : 2097152 ≤ n) (h2 : n < 2 ^ 28) :
    encodeRemainingLength ownedSink n ⟨[], 4⟩ =
      .ok ⟨[n % 128 + 128, n / 128 % 128 + 128, n / 128 / 128 % 128 + 128,
            n / 128 / 128 / 128 % 128], 0⟩ := by
  have e1 : n >>> 7 = n / 128 := Nat.shiftRight_eq_div_pow n 7
  have e2 : (n / 128) >>> 7 = n / 128 / 128 := Nat.shiftRight_eq_div_pow _ 7
  have e3 : (n / 128 / 128) >>> 7 = n / 128 / 128 / 128 := Nat.shiftRight_eq_div_pow _ 7
  have e4 : (n / 128 / 128 / 128) >>> 7 = n / 128 / 128 / 128 / 128 :=
    Nat.shiftRight_eq_div_pow _ 7
  have h2' : n < 268435456 := by omega
  unfold encodeRemainingLength
  rw [show (4 : Nat) = 3 + 1 from rfl,
    encodeGoStepOk _ _ _ _ _ _ (ownedPutU8 ⟨[], 4⟩ _ (by norm_num))]
  rw [e1, if_neg (by omega : ¬ n / 128 = 0), if_neg (by omega : ¬ (3 : Nat) = 0)]
  rw [show (3 : Nat) = 2 + 1 from rfl,
    encodeGoStepOk _ _ _ _ _ _ (ownedPutU8 _ _ (by norm_num))]
  rw [e2, if_neg (by omega : ¬ n / 128 / 128 = 0), if_neg (by omega : ¬ (2 : Nat) = 0)]
  rw [show (2 : Nat) = 1 + 1 from rfl,
    encodeGoStepOk _ _ _ _ _ _ (ownedPutU8 _ _ (by norm_num))]
  rw [e3, if_neg (by omega : ¬ n / 128 / 128 / 128 = 0), if_neg (by omega : ¬ (1 : Nat) = 0)]
  rw [show (1 : Nat) = 0 + 1 from rfl,
    encodeGoStepOk _ _ _ _ _ _ (ownedPutU8 _ _ (by norm_num))]
  rw [e4, if_pos (by omega : n / 128 / 128 / 128 / 128 = 0)]
  rw [if_pos (by omega : 0 < n / 128), if_pos (by omega : 0 < n / 128 / 128),
    if_pos (by omega : 0 < n / 128 / 128 / 128),
    if_neg (by omega : ¬ 0 < n / 128 / 128 / 128 / 128)]
  rw [land127, mod_lor_cont, land127, mod_lor_cont, land127, mod_lor_cont, land127]
  simp

theorem c6_decode_case4 (n : Nat) (h1 : 2097152 ≤ n) (h2 : n < 2 ^ 28) :
    decodeRemainingLength [n % 128 + 128, n / 128 % 128 + 128, n / 128 / 128 % 128 + 128,
      n / 128 / 128 / 128 % 128] = .ok (some n, []) := by
  have h2' : n < 268435456 := by omega
  unfold decodeRemainingLength
  rw [decodeGoCons, if_neg (by simp [and128_of_cont] : ¬ ((n % 128 + 128) &&& 128 = 0)),
    if_neg (by omega : ¬ (0 + 1 = 4))]
  rw [decodeGoCons,
    if_neg (by simp [and128_of_cont] : ¬ ((n / 128 % 128 + 128) &&& 128 = 0)),
    if_neg (by omega : ¬ (0 + 1 + 1 = 4))]
  rw [decodeGoCons,
    if_neg (by simp [and128_of_cont] : ¬ ((n / 128 / 128 % 128 + 128) &&& 128 = 0)),
    if_neg (by omega : ¬ (0 + 1 + 1 + 1 = 4))]
  rw [decodeGoCons,
    if_pos (by simp [and128_of_lt (by omega : n / 128 / 128 / 128 % 128 < 128)])]
  simp only [land127, Nat.zero_or, Nat.zero_mul, Nat.shiftLeft_zero, Nat.zero_add,
    Nat.one_mul]
  rw [show (n % 128 + 128) % 128 = n % 128 by omega,
    show (n / 128 % 128 + 128) % 128 = n / 128 % 128 by omega,
    show (n / 128 / 128 % 128 + 128) % 128 = n / 128 / 128 % 128 by omega,
    show n / 128 / 128 / 128 % 128 % 128 = n / 128 / 128 / 128 % 128 by omega]
  rw [lor_shift_add _ _ _ (by omega : n % 128 < 2 ^ 7)]
  rw [show (1 + 1) * 7 = 14 by norm_num]
  rw [lor_shift_add _ _ _ (by omega : 2 ^ 7 * (n / 128 % 128) + n % 128 < 2 ^ 14)]
  rw [show (1 + 1 + 1) * 7 = 21 by norm_num]
  rw [lor_shift_add _ _ _ (by omega :
    2 ^ 14 * (n / 128 / 128 % 128) + (2 ^ 7 * (n / 128 % 128) + n % 128) < 2 ^ 21)]
  rw [show 2 ^ 21 * (n / 128 / 128 / 128 % 128) +
    (2 ^ 14 * (n / 128 / 128 % 128) + (2 ^ 7 * (n / 128 % 128) + n % 128)) = n by omega]

theorem c6_encode_too_high (n : Nat) (h : 2 ^ 28 ≤ n) :
    encodeRemainingLength ownedSink n ⟨[], 4⟩ = .error (.remainingLengthTooHigh n) := by
  have e1 : n >>> 7 = n / 128 := Nat.shiftRight_eq_div_pow n 7
  have e2 : (n / 128) >>> 7 = n / 128 / 128 := Nat.shiftRight_eq_div_pow _ 7
  have e3 : (n / 128 / 128) >>> 7 = n / 128 / 128 / 128 := Nat.shiftRight_eq_div_pow _ 7
  have e4 : (n / 128 / 128 / 128) >>> 7 = n / 128 / 128 / 128 / 128 :=
    Nat.shiftRight_eq_div_pow _ 7
  have h' : 268435456 ≤ n := by omega
  unfold encodeRemainingLength
  rw [show (4 : Nat) = 3 + 1 from rfl,
    encodeGoStepOk _ _ _ _ _ _ (ownedPutU8 ⟨[], 4⟩ _ (by norm_num))]
  rw [e1, if_neg (by omega : ¬ n / 128 = 0), if_neg (by omega : ¬ (3 : Nat) = 0)]
  rw [show (3 : Nat) = 2 + 1 from rfl,
    encodeGoStepOk _ _ _ _ _ _ (ownedPutU8 _ _ (by norm_num))]
  rw [e2, if_neg (by omega : ¬ n / 128 / 128 = 0), if_neg (by omega : ¬ (2 : Nat) = 0)]
  rw [show (2 : Nat) = 1 + 1 from rfl,
    encodeGoStepOk _ _ _ _ _ _ (ownedPutU8 _ _ (by norm_num))]
  rw [e3, if_neg (by omega : ¬ n / 128 / 128 / 128 = 0), if_neg (by omega : ¬ (1 : Nat) = 0)]
  rw [show (1 : Nat) = 0 + 1 from rfl,
    encodeGoStepOk _ _ _ _ _ _ (ownedPutU8 _ _ (by norm_num))]
  rw [e4, if_neg (by omega : ¬ n / 128 / 128 / 128 / 128 = 0), if_pos rfl]

theorem c6_decode_four_cont (b1 b2 b3 b4 : Nat) (rest : List Nat)
    (h1 : b1 &&& 0x80 ≠ 0) (h2 : b2 &&& 0x80 ≠ 0) (h3 : b3 &&& 0x80 ≠ 0)
    (h4 : b4 &&& 0x80 ≠ 0) :
    decodeRemainingLength (b1 :: b2 :: b3 :: b4 :: rest) =
      .error .remainingLengthTooHigh := by
  unfold decodeRemainingLength
  rw [decodeGoCons, if_neg h1, if_neg (by omega : ¬ (0 + 1 = 4))]
  rw [decodeGoCons, if_neg h2, if_neg (by omega : ¬ (0 + 1 + 1 = 4))]
  rw [decodeGoCons, if_neg h3, if_neg (by omega : ¬ (0 + 1 + 1 + 1 = 4))]
  rw [decodeGoCons, if_neg h4, if_pos (by omega : 0 + 1 + 1 + 1 + 1 = 4)]

theorem c6_decode_runs_out (src : List Nat) (hlen : src.length < 4)
    (hcont : ∀ b ∈ src, b &&& 0x80 ≠ 0) :
    decodeRemainingLength src = .ok (none, []) := by
  match src, hlen with
  | [], _ => rfl
  | [b1], _ =>
    unfold decodeRemainingLength
    rw [decodeGoCons, if_neg (hcont b1 (by simp)), if_neg (by omega : ¬ (0 + 1 = 4))]
    rfl
  | [b1, b2], _ =>
    unfold decodeRemainingLength
    rw [decodeGoCons, if_neg (hcont b1 (by simp)), if_neg (by omega : ¬ (0 + 1 = 4))]
    rw [decodeGoCons, if_neg (hcont b2 (by simp)), if_neg (by omega : ¬ (0 + 1 + 1 = 4))]
    rfl
  | [b1, b2, b3], _ =>
    unfold decodeRemainingLength
    rw [decodeGoCons, if_neg (hcont b1 (by simp)), if_neg (by omega : ¬ (0 + 1 = 4))]
    rw [decodeGoCons, if_neg (hcont b2 (by simp)), if_neg (by omega : ¬ (0 + 1 + 1 = 4))]
    rw [decodeGoCons, if_neg (hcont b3 (by simp)),
      if_neg (by omega : ¬ (0 + 1 + 1 + 1 = 4))]
    rfl

/-- Claim C1: the v5 round-trip property fails on the code.  Encoding the
minimal v5 CONNECT produces the expected fixed header, remaining length 13
and body, but decoding that body with the v5 CONNECT decoder fails with
IncompletePacket instead of returning the packet: v5::Connect::decode_rest
re-reads a protocol name/level header that decode_connect_start has
already consumed. -/
theorem roundtrip_v5_connect_fails :
    V5.encode ownedSink (.connect connectMinimal) ⟨[], 64⟩ =
      .ok ⟨[0x10, 0x0D, 0x00, 0x04, 0x4D, 0x51, 0x54, 0x54, 0x05, 0x02,
            0x00, 0x00, 0x00, 0x00, 0x00], 49⟩ ∧
    decodeFixedHeader [0x10, 0x0D, 0x00, 0x04, 0x4D, 0x51, 0x54, 0x54, 0x05, 0x02,
        0x00, 0x00, 0x00, 0x00, 0x00] =
      .ok (some (0x10, 13,
        [0x00, 0x04, 0x4D, 0x51, 0x54, 0x54, 0x05, 0x02, 0x00, 0x00, 0x00, 0x00, 0x00])) ∧
    V5.Connect.decode 0
        [0x00, 0x04, 0x4D, 0x51, 0x54, 0x54, 0x05, 0x02, 0x00, 0x00, 0x00, 0x00, 0x00] =
      .error .incompletePacket := by
  refine ⟨rfl, rfl, rfl⟩

/-- Claim C2: the CONNECT protocol-name/level dispatch.  The name check,
the version check and the v3 selection behave as specified, but selecting
v5 with level 0x05 does not decode the v5 CONNECT from the bytes following
the header: v5::Connect::decode_rest re-reads the protocol name and level,
so a well-formed v5 CONNECT body fails with IncompletePacket. -/
theorem connect_dispatch_v5_broken :
    Connect.decode 0
        [0x00, 0x04, 0x4D, 0x51, 0x54, 0x58, 0x05, 0x02, 0x00, 0x3C, 0x00, 0x01, 0x61] =
      .error (.unrecognizedProtocolName [0x4D, 0x51, 0x54, 0x58]) ∧
    Connect.decode 0
        [0x00, 0x04, 0x4D, 0x51, 0x54, 0x54, 0x06, 0x02, 0x00, 0x3C, 0x00, 0x01, 0x61] =
      .error (.unrecognizedProtocolVersion 0x06) ∧
    Connect.decode 0
        [0x00, 0x04, 0x4D, 0x51, 0x54, 0x54, 0x04, 0x02, 0x00, 0x3C, 0x00, 0x01, 0x61] =
      .ok (.v3 { username := none, password := none, will := none,
                 client_id := .idWithCleanSession ⟨[0x00, 0x01, 0x61]⟩,
                 keep_alive := 60 }, []) ∧
    Connect.decode 0
        [0x00, 0x04, 0x4D, 0x51, 0x54, 0x54, 0x05, 0x02, 0x00, 0x3C, 0x00, 0x00, 0x00, 0x01,
         0x61] =
      .error .incompletePacket := by
  refine ⟨rfl, rfl, rfl, rfl⟩

/-- Claim C3: the MaximumPacketSize encode arm emits identifier byte 0x21
(the ReceiveMaximum identifier) instead of 0x27, while the decoder maps
0x27 to MaximumPacketSize; consequently an encoded property list carrying
MaximumPacketSize(1) decodes to ReceiveMaximum(0) followed by garbage
instead of round-tripping. -/
theorem maximumPacketSize_encodes_wrong_identifier :
    V5.Property.encode ownedSink (.maximumPacketSize 1) ⟨[], 16⟩ =
      .ok ⟨[0x21, 0x00, 0x00, 0x00, 0x01], 11⟩ ∧
    V5.Property.decode [0x27, 0x00, 0x00, 0x00, 0x01] = .ok (.maximumPacketSize 1, []) ∧
    V5.Property.decode [0x21, 0x00, 0x00, 0x00, 0x01] =
      .ok (.receiveMaximum 0, [0x00, 0x01]) ∧
    V5.Property.encodeAll ownedSink [.maximumPacketSize 1] ⟨[], 16⟩ =
      .ok ⟨[0x05, 0x21, 0x00, 0x00, 0x00, 0x01], 10⟩ := by
  refine ⟨rfl, rfl, rfl, rfl⟩

/-- Claim C4: ByteStr::decode performs no UTF-8 validation.  Decoding a
byte string whose single payload byte 0xFF is not valid UTF-8 succeeds
instead of failing with StringNotUtf8; indeed the decoder never fails on
any input at all - it only ever returns Ok. -/
theorem byteStr_decode_skips_utf8_validation :
    ByteStr.decode [0x00, 0x01, 0xFF] = .ok (some (⟨[0x00, 0x01, 0xFF]⟩, [])) ∧
    isUtf8 [0xFF] = false ∧
    (∀ src : List Nat, ∃ result, ByteStr.decode src = .ok result) := by
  refine ⟨rfl, by decide, ?_⟩
  intro src
  match src with
  | [] => exact ⟨none, rfl⟩
  | [b1] => exact ⟨none, rfl⟩
  | b1 :: b2 :: rest =>
    rcases Nat.lt_or_ge (b1 :: b2 :: rest).length (2 + (b1 * 256 + b2)) with hlt | hge
    · exact ⟨none, by
        unfold ByteStr.decode
        simp only [List.length_cons] at hlt ⊢
        simp [hlt]⟩
    · exact ⟨some (⟨(b1 :: b2 :: rest).take (2 + (b1 * 256 + b2))⟩,
        (b1 :: b2 :: rest).drop (2 + (b1 * 256 + b2))), by
          unfold ByteStr.decode
          simp only [List.length_cons] at hge ⊢
          simp [Nat.not_lt.mpr hge]⟩

/-- Claim C5 counterexample: decoding the TopicAlias property with value 0
succeeds (returning TopicAlias 0) instead of failing, refuting the claim
that all three zero-valued properties are rejected on decode. -/
theorem topicAlias_zero_decodes :
    V5.Property.decode [0x23, 0x00, 0x00] = .ok (.topicAlias 0, []) := rfl

/-- Claim C5 as amended: on encode all three of MaximumPacketSize,
ReceiveMaximum and TopicAlias reject the value 0 with their respective
errors, for every sink; on decode only MaximumPacketSize = 0 is rejected,
while ReceiveMaximum = 0 and TopicAlias = 0 decode successfully. -/
theorem zero_property_validation :
    (∀ (σ : Type) (d : ByteSink σ) (s : σ),
      V5.Property.encode d (.maximumPacketSize 0) s = .error (.invalidMaximumPacketSize 0)) ∧
    (∀ (σ : Type) (d : ByteSink σ) (s : σ),
      V5.Property.encode d (.receiveMaximum 0) s = .error (.invalidReceiveMaximum 0)) ∧
    (∀ (σ : Type) (d : ByteSink σ) (s : σ),
      V5.Property.encode d (.topicAlias 0) s = .error (.invalidTopicAlias 0)) ∧
    (∀ rest : List Nat,
      V5.Property.decode (0x27 :: 0x00 :: 0x00 :: 0x00 :: 0x00 :: rest) =
        .error (.invalidMaximumPacketSize 0)) ∧
    (∀ rest : List Nat,
      V5.Property.decode (0x21 :: 0x00 :: 0x00 :: rest) = .ok (.receiveMaximum 0, rest)) ∧
    (∀ rest : List Nat,
      V5.Property.decode (0x23 :: 0x00 :: 0x00 :: rest) = .ok (.topicAlias 0, rest)) := by
  refine ⟨fun σ d s => rfl, fun σ d s => rfl, fun σ d s => rfl,
    fun rest => rfl, fun rest => rfl, fun rest => rfl⟩

/-- Claim C7: packet-identifier addition wraps modulo 2^16 and skips zero:
the sum is never the zero identifier, 0xFFFF + 1 wraps to 0x0001, and when
the wrapping sum is nonzero the result is exactly that sum. -/
theorem packetIdentifier_add_wraps_skipping_zero :
    (∀ (p : PacketIdentifier) (k : Nat), (p.add k).val ≠ 0) ∧
    PacketIdentifier.add ⟨0xFFFF⟩ 1 = ⟨0x0001⟩ ∧
    (∀ (p : PacketIdentifier) (k : Nat), (p.val + k) % 2 ^ 16 ≠ 0 →
      (p.add k).val = (p.val + k) % 2 ^ 16) := by
  refine ⟨?_, by decide, ?_⟩
  · intro p k
    unfold PacketIdentifier.add
    cases h : (p.val + k) % 2 ^ 16 with
    | zero => simp
    | succ v => simp
  · intro p k hne
    unfold PacketIdentifier.add
    cases h : (p.val + k) % 2 ^ 16 with
    | zero => exact absurd h hne
    | succ v => simp

/-- Witness for packetIdentifier_add_wraps_skipping_zero: the wrapping-sum
conjunct evaluated at the identifier 5 and increment 7. -/
theorem packetIdentifier_add_wraps_skipping_zero_witness :
    (5 + 7) % 2 ^ 16 ≠ 0 ∧ (PacketIdentifier.add ⟨5⟩ 7).val = (5 + 7) % 2 ^ 16 :=
  ⟨by decide, packetIdentifier_add_wraps_skipping_zero.2.2 ⟨5⟩ 7 (by decide)⟩

/-- Claim C8 counterexample: try_get_packet_identifier on a view holding
exactly the two bytes 0x00 0x00 has enough bytes for the read, yet it does
not return the big-endian value: it fails with ZeroPacketIdentifier, and
the two bytes have been drained. -/
theorem tryGetPacketIdentifier_zero_fails :
    tryGetPacketIdentifier [0x00, 0x00] = (.error .zeroPacketIdentifier, []) := rfl

/-- Claim C8 as amended: the fixed-width reads fail with IncompletePacket
and leave the view unchanged when it is too short, and otherwise return the
big-endian value and drain exactly the read bytes - except that
try_get_packet_identifier, when the two bytes encode the value zero, fails
with ZeroPacketIdentifier after draining them. -/
theorem shared_fixed_width_reads :
    (∀ src : List Nat, src.length < 1 → tryGetU8 src = (.error .incompletePacket, src)) ∧
    (∀ src : List Nat, src.length < 2 → tryGetU16be src = (.error .incompletePacket, src)) ∧
    (∀ src : List Nat, src.length < 4 → tryGetU32be src = (.error .incompletePacket, src)) ∧
    (∀ src : List Nat, src.length < 2 →
      tryGetPacketIdentifier src = (.error .incompletePacket, src)) ∧
    (∀ (b : Nat) (rest : List Nat), tryGetU8 (b :: rest) = (.ok b, rest)) ∧
    (∀ (b1 b2 : Nat) (rest : List Nat),
      tryGetU16be (b1 :: b2 :: rest) = (.ok (b1 * 256 + b2), rest)) ∧
    (∀ (b1 b2 b3 b4 : Nat) (rest : List Nat),
      tryGetU32be (b1 :: b2 :: b3 :: b4 :: rest) =
        (.ok (b1 * 2 ^ 24 + b2 * 2 ^ 16 + b3 * 2 ^ 8 + b4), rest)) ∧
    (∀ (b1 b2 : Nat) (rest : List Nat), b1 * 256 + b2 ≠ 0 →
      tryGetPacketIdentifier (b1 :: b2 :: rest) = (.ok ⟨b1 * 256 + b2⟩, rest)) ∧
    (∀ (b1 b2 : Nat) (rest : List Nat), b1 * 256 + b2 = 0 →
      tryGetPacketIdentifier (b1 :: b2 :: rest) = (.error .zeroPacketIdentifier, rest)) := by
  refine ⟨?_, ?_, ?_, ?_, fun b rest => rfl, fun b1 b2 rest => rfl,
    fun b1 b2 b3 b4 rest => rfl, ?_, ?_⟩
  · intro src h
    match src, h with
    | [], _ => rfl
  · intro src h
    match src, h with
    | [], _ => rfl
    | [b1], _ => rfl
  · intro src h
    match src, h with
    | [], _ => rfl
    | [b1], _ => rfl
    | [b1, b2], _ => rfl
    | [b1, b2, b3], _ => rfl
  · intro src h
    match src, h with
    | [], _ => rfl
    | [b1], _ => rfl
  · intro b1 b2 rest h
    cases hv : b1 * 256 + b2 with
    | zero => exact absurd hv h
    | succ v => simp [tryGetPacketIdentifier, tryGetU16be, PacketIdentifier.new, hv]
  · intro b1 b2 rest h
    simp [tryGetPacketIdentifier, tryGetU16be, PacketIdentifier.new, h]

/-- Witness for shared_fixed_width_reads: the too-short and the nonzero
packet-identifier conjuncts at concrete inputs. -/
theorem shared_fixed_width_reads_witness :
    ([0x05] : List Nat).length < 2 ∧
    tryGetU16be [0x05] = (.error .incompletePacket, [0x05]) ∧
    (0 * 256 + 7 ≠ 0 ∧ tryGetPacketIdentifier [0x00, 0x07, 0xAA] = (.ok ⟨7⟩, [0xAA])) :=
  ⟨by decide, shared_fixed_width_reads.2.1 [0x05] (by decide),
    by decide, shared_fixed_width_reads.2.2.2.2.2.2.2.1 0 7 [0xAA] (by decide)⟩

/-- Claim C10: for the v5 acknowledgement packets with an optional variable
header, a body ending right after the (optional) packet identifier decodes
to the Success/Normal default with no properties, but a body holding the
reason-code byte with nothing after it (no property-length byte) fails
with IncompletePacket. -/
theorem ack_optional_variable_header :
    (∀ b1 b2 code : Nat, PacketIdentifier.new (b1 * 256 + b2) ≠ none →
      (∃ rc, V5.PubAckReasonCode.tryFrom code = .ok rc) →
      V5.PubAck.decode [b1, b2, code] = .error .incompletePacket) ∧
    (∀ (b1 b2 : Nat) (pid : PacketIdentifier),
      PacketIdentifier.new (b1 * 256 + b2) = some pid →
      V5.PubAck.decode [b1, b2] =
        .ok ({ packet_identifier := pid, reason_code := .success,
               reason_string := none, user_properties := [] }, [])) ∧
    (∀ (code : Nat) (rc : V5.DisconnectReasonCode),
      V5.DisconnectReasonCode.tryFrom code = .ok rc →
      V5.Disconnect.decode [code] = .error .incompletePacket) ∧
    V5.Disconnect.decode [] =
      .ok ({ reason_code := .normal, session_expiry_interval := none,
             reason_string := none, user_properties := [],
             server_reference := none }, []) := by
  refine ⟨?_, ?_, ?_, rfl⟩
  · intro b1 b2 code hpid hex
    obtain ⟨rc, hrc⟩ := hex
    cases hnew : PacketIdentifier.new (b1 * 256 + b2) with
    | none => exact absurd hnew hpid
    | some pid =>
      simp only [V5.PubAck.decode, tryGetPacketIdentifier, tryGetU16be, hnew, tryGetU8, hrc]
      rfl
  · intro b1 b2 pid hpid
    simp only [V5.PubAck.decode, tryGetPacketIdentifier, tryGetU16be, hpid, tryGetU8]
  · intro code rc hrc
    unfold V5.Disconnect.decode
    simp only [tryGetU8, hrc]
    rfl

/-- Witness for ack_optional_variable_header: the PUBACK conjuncts at
packet identifier 1 and reason code byte 0, and the DISCONNECT conjunct at
reason code byte 0. -/
theorem ack_optional_variable_header_witness :
    (PacketIdentifier.new (0 * 256 + 1) ≠ none ∧
      (∃ rc, V5.PubAckReasonCode.tryFrom 0 = .ok rc) ∧
      V5.PubAck.decode [0, 1, 0] = .error .incompletePacket) ∧
    (V5.DisconnectReasonCode.tryFrom 0 = .ok .normal ∧
      V5.Disconnect.decode [0] = .error .incompletePacket) :=
  ⟨⟨by decide, ⟨.success, rfl⟩,
      ack_optional_variable_header.1 0 1 0 (by decide) ⟨.success, rfl⟩⟩,
    ⟨rfl, ack_optional_variable_header.2.2.1 0 .normal rfl⟩⟩

/-- Claim C6: remaining-length laws.  For n below 2^28, encoding emits the
shortest continuation-bit form (1, 2, 3 or 4 bytes by magnitude) and
decoding maps it back to n with nothing left over; values at or above 2^28
are rejected with RemainingLengthTooHigh on encode; non-canonical
longer-than-necessary encodings such as 81 00 are accepted on decode; an
input whose first four bytes all carry the continuation bit fails with
RemainingLengthTooHigh; an input that runs out mid-sequence decodes to
Ok(None). -/
theorem remaining_length_laws :
    (∀ n : Nat, n < 2 ^ 28 →
      encodeRemainingLength ownedSink n ⟨[], 4⟩ =
        .ok ⟨rlBytes n, 4 - (rlBytes n).length⟩ ∧
      decodeRemainingLength (rlBytes n) = .ok (some n, []) ∧
      (rlBytes n).length =
        (if n < 128 then 1 else if n < 16384 then 2 else if n < 2097152 then 3 else 4)) ∧
    (∀ n : Nat, 2 ^ 28 ≤ n →
      encodeRemainingLength ownedSink n ⟨[], 4⟩ = .error (.remainingLengthTooHigh n)) ∧
    decodeRemainingLength [0x81, 0x00] = .ok (some 1, []) ∧
    (∀ (b1 b2 b3 b4 : Nat) (rest : List Nat),
      b1 &&& 0x80 ≠ 0 → b2 &&& 0x80 ≠ 0 → b3 &&& 0x80 ≠ 0 → b4 &&& 0x80 ≠ 0 →
      decodeRemainingLength (b1 :: b2 :: b3 :: b4 :: rest) =
        .error .remainingLengthTooHigh) ∧
    (∀ src : List Nat, src.length < 4 → (∀ b ∈ src, b &&& 0x80 ≠ 0) →
      decodeRemainingLength src = .ok (none, [])) := by
  refine ⟨?_, c6_encode_too_high, rfl, c6_decode_four_cont, c6_decode_runs_out⟩
  intro n hn
  by_cases hc1 : n < 128
  · simp only [rlBytes, if_pos hc1]
    exact ⟨by simpa using c6_encode_case1 n hc1, c6_decode_case1 n hc1, by simp [hc1]⟩
  · by_cases hc2 : n < 16384
    · simp only [rlBytes, if_neg hc1, if_pos hc2]
      refine ⟨by simpa using c6_encode_case2 n (by omega) hc2,
        c6_decode_case2 n (by omega) hc2, by simp [hc1, hc2]⟩
    · by_cases hc3 : n < 2097152
      · simp only [rlBytes, if_neg hc1, if_neg hc2, if_pos hc3]
        refine ⟨by simpa using c6_encode_case3 n (by omega) hc3,
          c6_decode_case3 n (by omega) hc3, by simp [hc1, hc2, hc3]⟩
      · simp only [rlBytes, if_neg hc1, if_neg hc2, if_neg hc3]
        refine ⟨by simpa using c6_encode_case4 n (by omega) hn,
          c6_decode_case4 n (by omega) hn, by simp [hc1, hc2, hc3]⟩

/-- Witness for remaining_length_laws: each guarded conjunct applied at a
concrete input (0x80 for the round trip, 0x10000000 for the rejection, four
0x80 bytes for the overlong input, a single 0x80 byte for the truncated
one). -/
theorem remaining_length_laws_witness :
    ((0x80 : Nat) < 2 ^ 28 ∧
      encodeRemainingLength ownedSink 0x80 ⟨[], 4⟩ =
        .ok ⟨rlBytes 0x80, 4 - (rlBytes 0x80).length⟩ ∧
      decodeRemainingLength (rlBytes 0x80) = .ok (some 0x80, [])) ∧
    ((2 : Nat) ^ 28 ≤ 0x10000000 ∧
      encodeRemainingLength ownedSink 0x10000000 ⟨[], 4⟩ =
        .error (.remainingLengthTooHigh 0x10000000)) ∧
    decodeRemainingLength [0x80, 0x80, 0x80, 0x80] = .error .remainingLengthTooHigh ∧
    decodeRemainingLength [0x80] = .ok (none, []) :=
  ⟨⟨by decide, (remaining_length_laws.1 0x80 (by decide)).1,
      (remaining_length_laws.1 0x80 (by decide)).2.1⟩,
    ⟨by decide, remaining_length_laws.2.1 0x10000000 (by decide)⟩,
    remaining_length_laws.2.2.2.1 0x80 0x80 0x80 0x80 [] (by decide) (by decide)
      (by decide) (by decide),
    remaining_length_laws.2.2.2.2 [0x80] (by decide) (by simp)⟩

/-! ### Simulation machinery for the two-pass body encoding -/

/-- exceptBindSim: the sequencing step of the forward simulation.  If the
first actions of two encoder runs are related (success of the first implies
success of the second with related results) and the continuations preserve
the relation, the whole error-propagating match does. -/
theorem exceptBindSim {σ₁ σ₂ : Type} {R : σ₁ → σ₂ → Prop}
    {X₁ : Except EncodeError σ₁} {X₂ : Except EncodeError σ₂}
    {K₁ : σ₁ → Except EncodeError σ₁} {K₂ : σ₂ → Except EncodeError σ₂} {t₁ : σ₁}
    (hX : ∀ u₁, X₁ = .ok u₁ → ∃ u₂, X₂ = .ok u₂ ∧ R u₁ u₂)
    (hK : ∀ u₁ u₂, R u₁ u₂ → K₁ u₁ = .ok t₁ → ∃ t₂, K₂ u₂ = .ok t₂ ∧ R t₁ t₂)
    (hrun : (match X₁ with
             | .error e => (.error e : Except EncodeError σ₁)
             | .ok s => K₁ s) = .ok t₁) :
    ∃ t₂, (match X₂ with
           | .error e => (.error e : Except EncodeError σ₂)
           | .ok s => K₂ s) = .ok t₂ ∧ R t₁ t₂ := by
  cases hX₁ : X₁ with
  | error e => rw [hX₁] at hrun; simp at hrun
  | ok u₁ =>
    rw [hX₁] at hrun
    obtain ⟨u₂, e₂, hRu⟩ := hX u₁ hX₁
    rw [e₂]
    exact hK u₁ u₂ hRu hrun
/-- The simulation transfers across tryPutSlice. -/
theorem putSimSlice {σ₁ σ₂ : Type} {R : σ₁ → σ₂ → Prop} {d₁ : ByteSink σ₁}
    {d₂ : ByteSink σ₂} (h : PutSim R d₁ d₂) {s₁ : σ₁} {s₂ : σ₂} {t₁ : σ₁} {bs : List Nat}
    (hR : R s₁ s₂) (e : d₁.tryPutSlice s₁ bs = .ok t₁) :
    ∃ t₂, d₂.tryPutSlice s₂ bs = .ok t₂ ∧ R t₁ t₂ :=
  h _ _ _ _ hR e
/-- The simulation transfers across tryPutU8. -/
theorem putSimU8 {σ₁ σ₂ : Type} {R : σ₁ → σ₂ → Prop} {d₁ : ByteSink σ₁}
    {d₂ : ByteSink σ₂} (h : PutSim R d₁ d₂) {s₁ : σ₁} {s₂ : σ₂} {t₁ : σ₁} {n : Nat}
    (hR : R s₁ s₂) (e : d₁.tryPutU8 s₁ n = .ok t₁) :
    ∃ t₂, d₂.tryPutU8 s₂ n = .ok t₂ ∧ R t₁ t₂ :=
  h _ _ _ _ hR e
/-- The simulation transfers across tryPutU16be. -/
theorem putSimU16 {σ₁ σ₂ : Type} {R : σ₁ → σ₂ → Prop} {d₁ : ByteSink σ₁}
    {d₂ : ByteSink σ₂} (h : PutSim R d₁ d₂) {s₁ : σ₁} {s₂ : σ₂} {t₁ : σ₁} {n : Nat}
    (hR : R s₁ s₂) (e : d₁.tryPutU16be s₁ n = .ok t₁) :
    ∃ t₂, d₂.tryPutU16be s₂ n = .ok t₂ ∧ R t₁ t₂ :=
  h _ _ _ _ hR e
/-- The simulation transfers across tryPutU32be. -/
theorem putSimU32 {σ₁ σ₂ : Type} {R : σ₁ → σ₂ → Prop} {d₁ : ByteSink σ₁}
    {d₂ : ByteSink σ₂} (h : PutSim R d₁ d₂) {s₁ : σ₁} {s₂ : σ₂} {t₁ : σ₁} {n : Nat}
    (hR : R s₁ s₂) (e : d₁.tryPutU32be s₁ n = .ok t₁) :
    ∃ t₂, d₂.tryPutU32be s₂ n = .ok t₂ ∧ R t₁ t₂ :=
  h _ _ _ _ hR e
/-- The simulation transfers across tryPutPacketIdentifier. -/
theorem putSimPid {σ₁ σ₂ : Type} {R : σ₁ → σ₂ → Prop} {d₁ : ByteSink σ₁}
    {d₂ : ByteSink σ₂} (h : PutSim R d₁ d₂) {s₁ : σ₁} {s₂ : σ₂} {t₁ : σ₁} {pid : PacketIdentifier}
    (hR : R s₁ s₂) (e : d₁.tryPutPacketIdentifier s₁ pid = .ok t₁) :
    ∃ t₂, d₂.tryPutPacketIdentifier s₂ pid = .ok t₂ ∧ R t₁ t₂ :=
  h _ _ _ _ hR e
/-- The simulation transfers across tryPutBytes. -/
theorem putSimBytes {σ₁ σ₂ : Type} {R : σ₁ → σ₂ → Prop} {d₁ : ByteSink σ₁}
    {d₂ : ByteSink σ₂} (h : PutSim R d₁ d₂) {s₁ : σ₁} {s₂ : σ₂} {t₁ : σ₁} {bs : List Nat}
    (hR : R s₁ s₂) (e : d₁.tryPutBytes s₁ bs = .ok t₁) :
    ∃ t₂, d₂.tryPutBytes s₂ bs = .ok t₂ ∧ R t₁ t₂ :=
  h _ _ _ _ hR e
/-- The simulation transfers across ByteStr::encode. -/
theorem putSimStr {σ₁ σ₂ : Type} {R : σ₁ → σ₂ → Prop} {d₁ : ByteSink σ₁}
    {d₂ : ByteSink σ₂} (h : PutSim R d₁ d₂) {s₁ : σ₁} {s₂ : σ₂} {t₁ : σ₁} {str : ByteStr}
    (hR : R s₁ s₂) (e : ByteStr.encode d₁ str s₁ = .ok t₁) :
    ∃ t₂, ByteStr.encode d₂ str s₂ = .ok t₂ ∧ R t₁ t₂ :=
  h _ _ _ _ hR e

/-- The simulation transfers across an optional ByteStr write (the
username/password tail of both CONNECT encoders). -/
theorem optStrSim {σ₁ σ₂ : Type} {R : σ₁ → σ₂ → Prop} {d₁ : ByteSink σ₁}
    {d₂ : ByteSink σ₂} (h : PutSim R d₁ d₂) (o : Option ByteStr)
    {s₁ : σ₁} {s₂ : σ₂} {t₁ : σ₁} (hR : R s₁ s₂)
    (e : (match o with
          | none => (.ok s₁ : Except EncodeError σ₁)
          | some str => ByteStr.encode d₁ str s₁) = .ok t₁) :
    ∃ t₂, (match o with
           | none => (.ok s₂ : Except EncodeError σ₂)
           | some str => ByteStr.encode d₂ str s₂) = .ok t₂ ∧ R t₁ t₂ := by
  cases o with
  | none => exact ⟨s₂, rfl, by cases e; exact hR⟩
  | some str => exact putSimStr h hR e

/-- The simulation transfers across the client-id write of both CONNECT
encoders. -/
theorem clientIdSim {σ₁ σ₂ : Type} {R : σ₁ → σ₂ → Prop} {d₁ : ByteSink σ₁}
    {d₂ : ByteSink σ₂} (h : PutSim R d₁ d₂) (cid : ClientId)
    {s₁ : σ₁} {s₂ : σ₂} {t₁ : σ₁} (hR : R s₁ s₂)
    (e : (match cid with
          | .serverGenerated => d₁.tryPutSlice s₁ ByteStr.EMPTY
          | .idWithCleanSession clientId | .idWithExistingSession clientId =>
            ByteStr.encode d₁ clientId s₁) = .ok t₁) :
    ∃ t₂, (match cid with
           | .serverGenerated => d₂.tryPutSlice s₂ ByteStr.EMPTY
           | .idWithCleanSession clientId | .idWithExistingSession clientId =>
             ByteStr.encode d₂ clientId s₂) = .ok t₂ ∧ R t₁ t₂ := by
  cases cid with
  | serverGenerated => exact h _ _ _ _ hR e
  | idWithCleanSession clientId => exact putSimStr h hR e
  | idWithExistingSession clientId => exact putSimStr h hR e

/-- The simulation transfers across the remaining-length loop body. -/
theorem encodeRLGoSim {σ₁ σ₂ : Type} {R : σ₁ → σ₂ → Prop} {d₁ : ByteSink σ₁}
    {d₂ : ByteSink σ₂} (h : PutSim R d₁ d₂) (orig : Nat) :
    ∀ (wl item : Nat) (s₁ : σ₁) (s₂ : σ₂) (t₁ : σ₁), R s₁ s₂ →
      encodeRemainingLengthGo d₁ orig wl item s₁ = .ok t₁ →
      ∃ t₂, encodeRemainingLengthGo d₂ orig wl item s₂ = .ok t₂ ∧ R t₁ t₂ := by
  intro wl
  induction wl with
  | zero =>
    intro item s₁ s₂ t₁ hR hrun
    unfold encodeRemainingLengthGo at hrun
    simp at hrun
  | succ wl ih =>
    intro item s₁ s₂ t₁ hR hrun
    unfold encodeRemainingLengthGo at hrun ⊢
    simp only [] at hrun ⊢
    split at hrun
    · simp at hrun
    · rename_i u₁ e₁
      obtain ⟨u₂, e₂, hRu⟩ := putSimU8 h hR e₁
      rw [e₂]
      simp only [] at hrun ⊢
      split at hrun
      · rename_i hz
        rw [if_pos hz]
        exact ⟨u₂, rfl, by cases hrun; exact hRu⟩
      · rename_i hz
        rw [if_neg hz]
        split at hrun
        · simp at hrun
        · rename_i hwz
          rw [if_neg hwz]
          exact ih _ u₁ u₂ t₁ hRu hrun

/-- The simulation transfers across encode_remaining_length. -/
theorem encodeRLSim {σ₁ σ₂ : Type} {R : σ₁ → σ₂ → Prop} {d₁ : ByteSink σ₁}
    {d₂ : ByteSink σ₂} (h : PutSim R d₁ d₂) {item : Nat}
    {s₁ : σ₁} {s₂ : σ₂} {t₁ : σ₁} (hR : R s₁ s₂)
    (hrun : encodeRemainingLength d₁ item s₁ = .ok t₁) :
    ∃ t₂, encodeRemainingLength d₂ item s₂ = .ok t₂ ∧ R t₁ t₂ :=
  encodeRLGoSim h item 4 item s₁ s₂ t₁ hR hrun

/-- The simulation transfers across any encoding loop whose per-element
step transfers it. -/
theorem encodeEachSim {α σ₁ σ₂ : Type} {R : σ₁ → σ₂ → Prop}
    {step₁ : α → σ₁ → Except EncodeError σ₁} {step₂ : α → σ₂ → Except EncodeError σ₂}
    (hstep : ∀ (a : α) (s₁ : σ₁) (s₂ : σ₂) (t₁ : σ₁), R s₁ s₂ → step₁ a s₁ = .ok t₁ →
      ∃ t₂, step₂ a s₂ = .ok t₂ ∧ R t₁ t₂) :
    ∀ (xs : List α) (s₁ : σ₁) (s₂ : σ₂) (t₁ : σ₁), R s₁ s₂ →
      encodeEach step₁ xs s₁ = .ok t₁ →
      ∃ t₂, encodeEach step₂ xs s₂ = .ok t₂ ∧ R t₁ t₂ := by
  intro xs
  induction xs with
  | nil =>
    intro s₁ s₂ t₁ hR hrun
    unfold encodeEach at hrun
    exact ⟨s₂, rfl, by cases hrun; exact hR⟩
  | cons x xs ih =>
    intro s₁ s₂ t₁ hR hrun
    unfold encodeEach at hrun ⊢
    split at hrun
    · simp at hrun
    · rename_i u₁ e₁
      obtain ⟨u₂, e₂, hRu⟩ := hstep x s₁ s₂ u₁ hR e₁
      rw [e₂]
      exact ih u₁ u₂ t₁ hRu hrun
/-- The simulation transfers across Property::encode, arm by arm. -/
theorem propertyEncodeSim {σ₁ σ₂ : Type} {R : σ₁ → σ₂ → Prop} {d₁ : ByteSink σ₁}
    {d₂ : ByteSink σ₂} (h : PutSim R d₁ d₂) (p : V5.Property)
    {s₁ : σ₁} {s₂ : σ₂} {t₁ : σ₁} (hR : R s₁ s₂)
    (hrun : V5.Property.encode d₁ p s₁ = .ok t₁) :
    ∃ t₂, V5.Property.encode d₂ p s₂ = .ok t₂ ∧ R t₁ t₂ := by
  cases p with
  | assignedClientIdentifier v =>
    simp only [V5.Property.encode] at hrun ⊢
    refine exceptBindSim (fun u e => putSimU8 h hR e) ?_ hrun
    intro u₁ u₂ hRu hrun
    exact putSimStr h hRu hrun
  | authenticationData v =>
    simp only [V5.Property.encode] at hrun ⊢
    refine exceptBindSim (fun u e => putSimU8 h hR e) ?_ hrun
    intro u₁ u₂ hRu hrun
    exact putSimBytes h hRu hrun
  | authenticationMethod v =>
    simp only [V5.Property.encode] at hrun ⊢
    refine exceptBindSim (fun u e => putSimU8 h hR e) ?_ hrun
    intro u₁ u₂ hRu hrun
    exact putSimStr h hRu hrun
  | contentType v =>
    simp only [V5.Property.encode] at hrun ⊢
    refine exceptBindSim (fun u e => putSimU8 h hR e) ?_ hrun
    intro u₁ u₂ hRu hrun
    exact putSimStr h hRu hrun
  | correlationData v =>
    simp only [V5.Property.encode] at hrun ⊢
    refine exceptBindSim (fun u e => putSimU8 h hR e) ?_ hrun
    intro u₁ u₂ hRu hrun
    exact putSimBytes h hRu hrun
  | maximumPacketSize v =>
    simp only [V5.Property.encode] at hrun ⊢
    split at hrun
    · simp at hrun
    · rename_i h1
      rw [if_neg h1]
      split at hrun
      · simp at hrun
      · rename_i h2
        rw [if_neg h2]
        refine exceptBindSim (fun u e => putSimU8 h hR e) ?_ hrun
        intro u₁ u₂ hRu hrun
        exact putSimU32 h hRu hrun
  | maximumQoS v =>
    simp only [V5.Property.encode] at hrun ⊢
    split at hrun
    · rename_i hc
      rw [if_pos hc]
      refine exceptBindSim (fun u e => putSimU8 h hR e) ?_ hrun
      intro u₁ u₂ hRu hrun
      exact putSimU8 h hRu hrun
    · rename_i hc
      rw [if_neg hc]
      exact ⟨s₂, rfl, by cases hrun; exact hR⟩
  | messageExpiryInterval v =>
    simp only [V5.Property.encode] at hrun ⊢
    split at hrun
    · simp at hrun
    · rename_i h1
      rw [if_neg h1]
      refine exceptBindSim (fun u e => putSimU8 h hR e) ?_ hrun
      intro u₁ u₂ hRu hrun
      exact putSimU32 h hRu hrun
  | payloadIsUtf8 v =>
    simp only [V5.Property.encode] at hrun ⊢
    split at hrun
    · rename_i hc
      rw [if_pos hc]
      refine exceptBindSim (fun u e => putSimU8 h hR e) ?_ hrun
      intro u₁ u₂ hRu hrun
      exact putSimU8 h hRu hrun
    · rename_i hc
      rw [if_neg hc]
      exact ⟨s₂, rfl, by cases hrun; exact hR⟩
  | reasonString v =>
    simp only [V5.Property.encode] at hrun ⊢
    refine exceptBindSim (fun u e => putSimU8 h hR e) ?_ hrun
    intro u₁ u₂ hRu hrun
    exact putSimStr h hRu hrun
  | receiveMaximum v =>
    simp only [V5.Property.encode] at hrun ⊢
    split at hrun
    · simp at hrun
    · rename_i h1
      rw [if_neg h1]
      split at hrun
      · simp at hrun
      · rename_i h2
        rw [if_neg h2]
        split at hrun
        · rename_i h3
          rw [if_pos h3]
          refine exceptBindSim (fun u e => putSimU8 h hR e) ?_ hrun
          intro u₁ u₂ hRu hrun
          exact putSimU16 h hRu hrun
        · rename_i h3
          rw [if_neg h3]
          exact ⟨s₂, rfl, by cases hrun; exact hR⟩
  | requestProblemInformation v =>
    simp only [V5.Property.encode] at hrun ⊢
    split at hrun
    · rename_i hc
      rw [if_pos hc]
      exact ⟨s₂, rfl, by cases hrun; exact hR⟩
    · rename_i hc
      rw [if_neg hc]
      refine exceptBindSim (fun u e => putSimU8 h hR e) ?_ hrun
      intro u₁ u₂ hRu hrun
      exact putSimU8 h hRu hrun
  | requestResponseInformation v =>
    simp only [V5.Property.encode] at hrun ⊢
    split at hrun
    · rename_i hc
      rw [if_pos hc]
      refine exceptBindSim (fun u e => putSimU8 h hR e) ?_ hrun
      intro u₁ u₂ hRu hrun
      exact putSimU8 h hRu hrun
    · rename_i hc
      rw [if_neg hc]
      exact ⟨s₂, rfl, by cases hrun; exact hR⟩
  | responseInformation v =>
    simp only [V5.Property.encode] at hrun ⊢
    refine exceptBindSim (fun u e => putSimU8 h hR e) ?_ hrun
    intro u₁ u₂ hRu hrun
    exact putSimStr h hRu hrun
  | responseTopic v =>
    simp only [V5.Property.encode] at hrun ⊢
    refine exceptBindSim (fun u e => putSimU8 h hR e) ?_ hrun
    intro u₁ u₂ hRu hrun
    exact putSimStr h hRu hrun
  | retainAvailable v =>
    simp only [V5.Property.encode] at hrun ⊢
    split at hrun
    · rename_i hc
      rw [if_pos hc]
      exact ⟨s₂, rfl, by cases hrun; exact hR⟩
    · rename_i hc
      rw [if_neg hc]
      refine exceptBindSim (fun u e => putSimU8 h hR e) ?_ hrun
      intro u₁ u₂ hRu hrun
      exact putSimU8 h hRu hrun
  | serverKeepAlive v =>
    simp only [V5.Property.encode] at hrun ⊢
    split at hrun
    · simp at hrun
    · rename_i h1
      rw [if_neg h1]
      refine exceptBindSim (fun u e => putSimU8 h hR e) ?_ hrun
      intro u₁ u₂ hRu hrun
      exact putSimU16 h hRu hrun
  | serverReference v =>
    simp only [V5.Property.encode] at hrun ⊢
    refine exceptBindSim (fun u e => putSimU8 h hR e) ?_ hrun
    intro u₁ u₂ hRu hrun
    exact putSimStr h hRu hrun
  | sessionExpiryInterval v =>
    simp only [V5.Property.encode] at hrun ⊢
    split at hrun
    · simp at hrun
    · rename_i h1
      rw [if_neg h1]
      split at hrun
      · rename_i h2
        rw [if_pos h2]
        refine exceptBindSim (fun u e => putSimU8 h hR e) ?_ hrun
        intro u₁ u₂ hRu hrun
        exact putSimU32 h hRu hrun
      · rename_i h2
        rw [if_neg h2]
        exact ⟨s₂, rfl, by cases hrun; exact hR⟩
  | sharedSubscriptionAvailable v =>
    simp only [V5.Property.encode] at hrun ⊢
    split at hrun
    · rename_i hc
      rw [if_pos hc]
      exact ⟨s₂, rfl, by cases hrun; exact hR⟩
    · rename_i hc
      rw [if_neg hc]
      refine exceptBindSim (fun u e => putSimU8 h hR e) ?_ hrun
      intro u₁ u₂ hRu hrun
      exact putSimU8 h hRu hrun
  | subscriptionIdentifier v =>
    simp only [V5.Property.encode] at hrun ⊢
    refine exceptBindSim (fun u e => putSimU8 h hR e) ?_ hrun
    intro u₁ u₂ hRu hrun
    exact encodeRLSim h hRu hrun
  | subscriptionIdentifierAvailable v =>
    simp only [V5.Property.encode] at hrun ⊢
    split at hrun
    · rename_i hc
      rw [if_pos hc]
      exact ⟨s₂, rfl, by cases hrun; exact hR⟩
    · rename_i hc
      rw [if_neg hc]
      refine exceptBindSim (fun u e => putSimU8 h hR e) ?_ hrun
      intro u₁ u₂ hRu hrun
      exact putSimU8 h hRu hrun
  | topicAlias v =>
    simp only [V5.Property.encode] at hrun ⊢
    split at hrun
    · simp at hrun
    · rename_i h1
      rw [if_neg h1]
      refine exceptBindSim (fun u e => putSimU8 h hR e) ?_ hrun
      intro u₁ u₂ hRu hrun
      exact putSimU16 h hRu hrun
  | topicAliasMaximum v =>
    simp only [V5.Property.encode] at hrun ⊢
    split at hrun
    · rename_i hc
      rw [if_pos hc]
      refine exceptBindSim (fun u e => putSimU8 h hR e) ?_ hrun
      intro u₁ u₂ hRu hrun
      exact putSimU16 h hRu hrun
    · rename_i hc
      rw [if_neg hc]
      exact ⟨s₂, rfl, by cases hrun; exact hR⟩
  | userProperty a b =>
    simp only [V5.Property.encode] at hrun ⊢
    refine exceptBindSim (fun u e => putSimU8 h hR e) ?_ hrun
    intro u₁ u₂ hRu hrun
    refine exceptBindSim (fun u e => putSimStr h hRu e) ?_ hrun
    intro v₁ v₂ hRv hrun
    exact putSimStr h hRv hrun
  | wildcardSubscriptionAvailable v =>
    simp only [V5.Property.encode] at hrun ⊢
    split at hrun
    · rename_i hc
      rw [if_pos hc]
      exact ⟨s₂, rfl, by cases hrun; exact hR⟩
    · rename_i hc
      rw [if_neg hc]
      refine exceptBindSim (fun u e => putSimU8 h hR e) ?_ hrun
      intro u₁ u₂ hRu hrun
      exact putSimU8 h hRu hrun
  | willDelayInterval v =>
    simp only [V5.Property.encode] at hrun ⊢
    split at hrun
    · simp at hrun
    · rename_i h1
      rw [if_neg h1]
      split at hrun
      · rename_i h2
        rw [if_pos h2]
        refine exceptBindSim (fun u e => putSimU8 h hR e) ?_ hrun
        intro u₁ u₂ hRu hrun
        exact putSimU32 h hRu hrun
      · rename_i h2
        rw [if_neg h2]
        exact ⟨s₂, rfl, by cases hrun; exact hR⟩
/-- The simulation transfers across encode_all_inner. -/
theorem encodeAllInnerSim {σ₁ σ₂ : Type} {R : σ₁ → σ₂ → Prop} {d₁ : ByteSink σ₁}
    {d₂ : ByteSink σ₂} (h : PutSim R d₁ d₂) (props : List V5.Property)
    {s₁ : σ₁} {s₂ : σ₂} {t₁ : σ₁} (hR : R s₁ s₂)
    (hrun : V5.Property.encodeAllInner d₁ props s₁ = .ok t₁) :
    ∃ t₂, V5.Property.encodeAllInner d₂ props s₂ = .ok t₂ ∧ R t₁ t₂ := by
  unfold V5.Property.encodeAllInner at hrun ⊢
  exact encodeEachSim (fun p a₁ a₂ b₁ hRa e => propertyEncodeSim h p hRa e)
    props s₁ s₂ t₁ hR hrun

/-- The simulation transfers across Property::encode_all: the internal
counter pre-pass is sink-independent, so both runs emit the same
property-length varint. -/
theorem encodeAllSim {σ₁ σ₂ : Type} {R : σ₁ → σ₂ → Prop} {d₁ : ByteSink σ₁}
    {d₂ : ByteSink σ₂} (h : PutSim R d₁ d₂) (props : List V5.Property)
    {s₁ : σ₁} {s₂ : σ₂} {t₁ : σ₁} (hR : R s₁ s₂)
    (hrun : V5.Property.encodeAll d₁ props s₁ = .ok t₁) :
    ∃ t₂, V5.Property.encodeAll d₂ props s₂ = .ok t₂ ∧ R t₁ t₂ := by
  unfold V5.Property.encodeAll at hrun ⊢
  split at hrun
  · simp at hrun
  · rename_i n e₁
    refine exceptBindSim (fun u e => encodeRLSim h hR e) ?_ hrun
    intro u₁ u₂ hRu hrun
    exact encodeAllInnerSim h props hRu hrun
/-- The simulation transfers across V5.Auth.encode. -/
theorem authEncodeSim {σ₁ σ₂ : Type} {R : σ₁ → σ₂ → Prop} {d₁ : ByteSink σ₁}
    {d₂ : ByteSink σ₂} (h : PutSim R d₁ d₂) (x : V5.Auth)
    {s₁ : σ₁} {s₂ : σ₂} {t₁ : σ₁} (hR : R s₁ s₂)
    (hrun : V5.Auth.encode d₁ x s₁ = .ok t₁) :
    ∃ t₂, V5.Auth.encode d₂ x s₂ = .ok t₂ ∧ R t₁ t₂ := by
  unfold V5.Auth.encode at hrun ⊢
  simp only [] at hrun ⊢
  split at hrun
  · rename_i hc
    rw [if_pos hc]
    refine exceptBindSim (fun u e => putSimU8 h hR e) ?_ hrun
    intro u₁ u₂ hRu hrun
    exact encodeAllSim h _ hRu hrun
  · rename_i hc
    rw [if_neg hc]
    exact ⟨s₂, rfl, by cases hrun; exact hR⟩
/-- The simulation transfers across V5.Disconnect.encode. -/
theorem disconnectEncodeSim {σ₁ σ₂ : Type} {R : σ₁ → σ₂ → Prop} {d₁ : ByteSink σ₁}
    {d₂ : ByteSink σ₂} (h : PutSim R d₁ d₂) (x : V5.Disconnect)
    {s₁ : σ₁} {s₂ : σ₂} {t₁ : σ₁} (hR : R s₁ s₂)
    (hrun : V5.Disconnect.encode d₁ x s₁ = .ok t₁) :
    ∃ t₂, V5.Disconnect.encode d₂ x s₂ = .ok t₂ ∧ R t₁ t₂ := by
  unfold V5.Disconnect.encode at hrun ⊢
  simp only [] at hrun ⊢
  split at hrun
  · rename_i hc
    rw [if_pos hc]
    refine exceptBindSim (fun u e => putSimU8 h hR e) ?_ hrun
    intro u₁ u₂ hRu hrun
    exact encodeAllSim h _ hRu hrun
  · rename_i hc
    rw [if_neg hc]
    exact ⟨s₂, rfl, by cases hrun; exact hR⟩
/-- The simulation transfers across V5.PubAck.encode. -/
theorem pubAckEncodeSim {σ₁ σ₂ : Type} {R : σ₁ → σ₂ → Prop} {d₁ : ByteSink σ₁}
    {d₂ : ByteSink σ₂} (h : PutSim R d₁ d₂) (x : V5.PubAck)
    {s₁ : σ₁} {s₂ : σ₂} {t₁ : σ₁} (hR : R s₁ s₂)
    (hrun : V5.PubAck.encode d₁ x s₁ = .ok t₁) :
    ∃ t₂, V5.PubAck.encode d₂ x s₂ = .ok t₂ ∧ R t₁ t₂ := by
  unfold V5.PubAck.encode at hrun ⊢
  split at hrun
  · simp at hrun
  · rename_i u₁ e₁
    obtain ⟨u₂, e₂, hRu⟩ := putSimPid h hR e₁
    rw [e₂]
    simp only [] at hrun ⊢
    split at hrun
    · rename_i hc
      rw [if_pos hc]
      refine exceptBindSim (fun u e => putSimU8 h hRu e) ?_ hrun
      intro v₁ v₂ hRv hrun
      exact encodeAllSim h _ hRv hrun
    · rename_i hc
      rw [if_neg hc]
      exact ⟨u₂, rfl, by cases hrun; exact hRu⟩
/-- The simulation transfers across V5.PubRec.encode. -/
theorem pubRecEncodeSim {σ₁ σ₂ : Type} {R : σ₁ → σ₂ → Prop} {d₁ : ByteSink σ₁}
    {d₂ : ByteSink σ₂} (h : PutSim R d₁ d₂) (x : V5.PubRec)
    {s₁ : σ₁} {s₂ : σ₂} {t₁ : σ₁} (hR : R s₁ s₂)
    (hrun : V5.PubRec.encode d₁ x s₁ = .ok t₁) :
    ∃ t₂, V5.PubRec.encode d₂ x s₂ = .ok t₂ ∧ R t₁ t₂ := by
  unfold V5.PubRec.encode at hrun ⊢
  split at hrun
  · simp at hrun
  · rename_i u₁ e₁
    obtain ⟨u₂, e₂, hRu⟩ := putSimPid h hR e₁
    rw [e₂]
    simp only [] at hrun ⊢
    split at hrun
    · rename_i hc
      rw [if_pos hc]
      refine exceptBindSim (fun u e => putSimU8 h hRu e) ?_ hrun
      intro v₁ v₂ hRv hrun
      exact encodeAllSim h _ hRv hrun
    · rename_i hc
      rw [if_neg hc]
      exact ⟨u₂, rfl, by cases hrun; exact hRu⟩
/-- The simulation transfers across V5.PubRel.encode. -/
theorem pubRelEncodeSim {σ₁ σ₂ : Type} {R : σ₁ → σ₂ → Prop} {d₁ : ByteSink σ₁}
    {d₂ : ByteSink σ₂} (h : PutSim R d₁ d₂) (x : V5.PubRel)
    {s₁ : σ₁} {s₂ : σ₂} {t₁ : σ₁} (hR : R s₁ s₂)
    (hrun : V5.PubRel.encode d₁ x s₁ = .ok t₁) :
    ∃ t₂, V5.PubRel.encode d₂ x s₂ = .ok t₂ ∧ R t₁ t₂ := by
  unfold V5.PubRel.encode at hrun ⊢
  split at hrun
  · simp at hrun
  · rename_i u₁ e₁
    obtain ⟨u₂, e₂, hRu⟩ := putSimPid h hR e₁
    rw [e₂]
    simp only [] at hrun ⊢
    split at hrun
    · rename_i hc
      rw [if_pos hc]
      refine exceptBindSim (fun u e => putSimU8 h hRu e) ?_ hrun
      intro v₁ v₂ hRv hrun
      exact encodeAllSim h _ hRv hrun
    · rename_i hc
      rw [if_neg hc]
      exact ⟨u₂, rfl, by cases hrun; exact hRu⟩
/-- The simulation transfers across V5.PubComp.encode. -/
theorem pubCompEncodeSim {σ₁ σ₂ : Type} {R : σ₁ → σ₂ → Prop} {d₁ : ByteSink σ₁}
    {d₂ : ByteSink σ₂} (h : PutSim R d₁ d₂) (x : V5.PubComp)
    {s₁ : σ₁} {s₂ : σ₂} {t₁ : σ₁} (hR : R s₁ s₂)
    (hrun : V5.PubComp.encode d₁ x s₁ = .ok t₁) :
    ∃ t₂, V5.PubComp.encode d₂ x s₂ = .ok t₂ ∧ R t₁ t₂ := by
  unfold V5.PubComp.encode at hrun ⊢
  split at hrun
  · simp at hrun
  · rename_i u₁ e₁
    obtain ⟨u₂, e₂, hRu⟩ := putSimPid h hR e₁
    rw [e₂]
    simp only [] at hrun ⊢
    split at hrun
    · rename_i hc
      rw [if_pos hc]
      refine exceptBindSim (fun u e => putSimU8 h hRu e) ?_ hrun
      intro v₁ v₂ hRv hrun
      exact encodeAllSim h _ hRv hrun
    · rename_i hc
      rw [if_neg hc]
      exact ⟨u₂, rfl, by cases hrun; exact hRu⟩
/-- The simulation transfers across V5.ConnAck.encode. -/
theorem connAckEncodeSimV5 {σ₁ σ₂ : Type} {R : σ₁ → σ₂ → Prop} {d₁ : ByteSink σ₁}
    {d₂ : ByteSink σ₂} (h : PutSim R d₁ d₂) (x : V5.ConnAck)
    {s₁ : σ₁} {s₂ : σ₂} {t₁ : σ₁} (hR : R s₁ s₂)
    (hrun : V5.ConnAck.encode d₁ x s₁ = .ok t₁) :
    ∃ t₂, V5.ConnAck.encode d₂ x s₂ = .ok t₂ ∧ R t₁ t₂ := by
  unfold V5.ConnAck.encode at hrun ⊢
  simp only [] at hrun ⊢
  refine exceptBindSim (fun u e => putSimU8 h hR e) ?_ hrun
  intro u₁ u₂ hRu hrun
  refine exceptBindSim (fun u e => putSimU8 h hRu e) ?_ hrun
  intro v₁ v₂ hRv hrun
  exact encodeAllSim h _ hRv hrun
/-- The simulation transfers across V5.Connect.encode. -/
theorem connectEncodeSimV5 {σ₁ σ₂ : Type} {R : σ₁ → σ₂ → Prop} {d₁ : ByteSink σ₁}
    {d₂ : ByteSink σ₂} (h : PutSim R d₁ d₂) (x : V5.Connect)
    {s₁ : σ₁} {s₂ : σ₂} {t₁ : σ₁} (hR : R s₁ s₂)
    (hrun : V5.Connect.encode d₁ x s₁ = .ok t₁) :
    ∃ t₂, V5.Connect.encode d₂ x s₂ = .ok t₂ ∧ R t₁ t₂ := by
  unfold V5.Connect.encode at hrun ⊢
  refine exceptBindSim (fun u e => putSimSlice h hR e) ?_ hrun
  intro a₁ a₂ hRa hrun
  simp only [] at hrun ⊢
  refine exceptBindSim (fun u e => putSimU8 h hRa e) ?_ hrun
  intro b₁ b₂ hRb hrun
  simp only [] at hrun ⊢
  refine exceptBindSim (fun u e => putSimU8 h hRb e) ?_ hrun
  intro c₁ c₂ hRc hrun
  simp only [] at hrun ⊢
  split at hrun
  · simp at hrun
  · rename_i hka
    rw [if_neg hka]
    refine exceptBindSim (fun u e => putSimU16 h hRc e) ?_ hrun
    intro dd₁ dd₂ hRd hrun
    simp only [] at hrun ⊢
    refine exceptBindSim (fun u e => encodeAllSim h _ hRd e) ?_ hrun
    intro e₁ e₂ hRe hrun
    simp only [] at hrun ⊢
    refine exceptBindSim (fun u e => clientIdSim h x.client_id hRe e) ?_ hrun
    intro f₁ f₂ hRf hrun
    simp only [] at hrun ⊢
    refine exceptBindSim ?_ ?_ hrun
    · intro g₁ ew
      revert ew
      cases hw : x.will with
      | none =>
        intro ew
        simp only [] at ew
        exact ⟨f₂, rfl, by cases ew; exact hRf⟩
      | some p =>
        obtain ⟨will, wdi⟩ := p
        intro ew
        simp only [] at ew ⊢
        refine exceptBindSim (fun u e => encodeAllSim h _ hRf e) ?_ ew
        intro w₁ w₂ hRw ew
        refine exceptBindSim (fun u e => putSimStr h hRw e) ?_ ew
        intro y₁ y₂ hRy ew
        split at ew
        · simp at ew
        · rename_i hwp
          rw [if_neg hwp]
          refine exceptBindSim (fun u e => putSimU16 h hRy e) ?_ ew
          intro z₁ z₂ hRz ew
          exact putSimBytes h hRz ew
    · intro g₁ g₂ hRg hrun
      simp only [] at hrun ⊢
      refine exceptBindSim (fun u e => optStrSim h x.username hRg e) ?_ hrun
      intro m₁ m₂ hRm hrun
      exact optStrSim h x.password hRm hrun
/-- The simulation transfers across V5.Publish.encode. -/
theorem publishEncodeSimV5 {σ₁ σ₂ : Type} {R : σ₁ → σ₂ → Prop} {d₁ : ByteSink σ₁}
    {d₂ : ByteSink σ₂} (h : PutSim R d₁ d₂) (x : V5.Publish)
    {s₁ : σ₁} {s₂ : σ₂} {t₁ : σ₁} (hR : R s₁ s₂)
    (hrun : V5.Publish.encode d₁ x s₁ = .ok t₁) :
    ∃ t₂, V5.Publish.encode d₂ x s₂ = .ok t₂ ∧ R t₁ t₂ := by
  unfold V5.Publish.encode at hrun ⊢
  refine exceptBindSim (fun u e => putSimStr h hR e) ?_ hrun
  intro a₁ a₂ hRa hrun
  simp only [] at hrun ⊢
  refine exceptBindSim ?_ ?_ hrun
  · intro u₁ ep
    revert ep
    cases hq : x.packet_identifier_dup_qos with
    | atMostOnce =>
      intro ep
      simp only [] at ep
      exact ⟨a₂, rfl, by cases ep; exact hRa⟩
    | atLeastOnce pid dup =>
      intro ep
      simp only [] at ep
      exact putSimPid h hRa ep
    | exactlyOnce pid dup =>
      intro ep
      simp only [] at ep
      exact putSimPid h hRa ep
  · intro b₁ b₂ hRb hrun
    refine exceptBindSim (fun u e => encodeAllSim h _ hRb e) ?_ hrun
    intro c₁ c₂ hRc hrun
    exact putSimBytes h hRc hrun
/-- The simulation transfers across V5.SubAck.encode. -/
theorem subAckEncodeSimV5 {σ₁ σ₂ : Type} {R : σ₁ → σ₂ → Prop} {d₁ : ByteSink σ₁}
    {d₂ : ByteSink σ₂} (h : PutSim R d₁ d₂) (x : V5.SubAck)
    {s₁ : σ₁} {s₂ : σ₂} {t₁ : σ₁} (hR : R s₁ s₂)
    (hrun : V5.SubAck.encode d₁ x s₁ = .ok t₁) :
    ∃ t₂, V5.SubAck.encode d₂ x s₂ = .ok t₂ ∧ R t₁ t₂ := by
  unfold V5.SubAck.encode at hrun ⊢
  refine exceptBindSim (fun u e => putSimPid h hR e) ?_ hrun
  intro a₁ a₂ hRa hrun
  refine exceptBindSim (fun u e => encodeAllSim h _ hRa e) ?_ hrun
  intro b₁ b₂ hRb hrun
  refine encodeEachSim ?_ x.reason_codes b₁ b₂ t₁ hRb hrun
  intro rc u₁ u₂ v₁ hRu e
  exact putSimU8 h hRu e
/-- The simulation transfers across V5.UnsubAck.encode. -/
theorem unsubAckEncodeSim {σ₁ σ₂ : Type} {R : σ₁ → σ₂ → Prop} {d₁ : ByteSink σ₁}
    {d₂ : ByteSink σ₂} (h : PutSim R d₁ d₂) (x : V5.UnsubAck)
    {s₁ : σ₁} {s₂ : σ₂} {t₁ : σ₁} (hR : R s₁ s₂)
    (hrun : V5.UnsubAck.encode d₁ x s₁ = .ok t₁) :
    ∃ t₂, V5.UnsubAck.encode d₂ x s₂ = .ok t₂ ∧ R t₁ t₂ := by
  unfold V5.UnsubAck.encode at hrun ⊢
  refine exceptBindSim (fun u e => putSimPid h hR e) ?_ hrun
  intro a₁ a₂ hRa hrun
  refine exceptBindSim (fun u e => encodeAllSim h _ hRa e) ?_ hrun
  intro b₁ b₂ hRb hrun
  refine encodeEachSim ?_ x.reason_codes b₁ b₂ t₁ hRb hrun
  intro rc u₁ u₂ v₁ hRu e
  exact putSimU8 h hRu e
/-- The simulation transfers across V5.Subscribe.encode. -/
theorem subscribeEncodeSimV5 {σ₁ σ₂ : Type} {R : σ₁ → σ₂ → Prop} {d₁ : ByteSink σ₁}
    {d₂ : ByteSink σ₂} (h : PutSim R d₁ d₂) (x : V5.Subscribe)
    {s₁ : σ₁} {s₂ : σ₂} {t₁ : σ₁} (hR : R s₁ s₂)
    (hrun : V5.Subscribe.encode d₁ x s₁ = .ok t₁) :
    ∃ t₂, V5.Subscribe.encode d₂ x s₂ = .ok t₂ ∧ R t₁ t₂ := by
  unfold V5.Subscribe.encode at hrun ⊢
  refine exceptBindSim (fun u e => putSimPid h hR e) ?_ hrun
  intro a₁ a₂ hRa hrun
  refine exceptBindSim (fun u e => encodeAllSim h _ hRa e) ?_ hrun
  intro b₁ b₂ hRb hrun
  refine encodeEachSim ?_ x.subscribe_to b₁ b₂ t₁ hRb hrun
  intro st u₁ u₂ v₁ hRu e
  simp only [] at e ⊢
  refine exceptBindSim (fun u eb => putSimStr h hRu eb) ?_ e
  intro w₁ w₂ hRw e
  exact putSimU8 h hRw e
/-- The simulation transfers across V5.Unsubscribe.encode. -/
theorem unsubscribeEncodeSimV5 {σ₁ σ₂ : Type} {R : σ₁ → σ₂ → Prop} {d₁ : ByteSink σ₁}
    {d₂ : ByteSink σ₂} (h : PutSim R d₁ d₂) (x : V5.Unsubscribe)
    {s₁ : σ₁} {s₂ : σ₂} {t₁ : σ₁} (hR : R s₁ s₂)
    (hrun : V5.Unsubscribe.encode d₁ x s₁ = .ok t₁) :
    ∃ t₂, V5.Unsubscribe.encode d₂ x s₂ = .ok t₂ ∧ R t₁ t₂ := by
  unfold V5.Unsubscribe.encode at hrun ⊢
  refine exceptBindSim (fun u e => putSimPid h hR e) ?_ hrun
  intro a₁ a₂ hRa hrun
  refine exceptBindSim (fun u e => encodeAllSim h _ hRa e) ?_ hrun
  intro b₁ b₂ hRb hrun
  refine encodeEachSim ?_ x.unsubscribe_from b₁ b₂ t₁ hRb hrun
  intro uf u₁ u₂ v₁ hRu e
  exact putSimStr h hRu e
/-- The simulation transfers across V3.ConnAck.encode. -/
theorem connAckEncodeSimV3 {σ₁ σ₂ : Type} {R : σ₁ → σ₂ → Prop} {d₁ : ByteSink σ₁}
    {d₂ : ByteSink σ₂} (h : PutSim R d₁ d₂) (x : V3.ConnAck)
    {s₁ : σ₁} {s₂ : σ₂} {t₁ : σ₁} (hR : R s₁ s₂)
    (hrun : V3.ConnAck.encode d₁ x s₁ = .ok t₁) :
    ∃ t₂, V3.ConnAck.encode d₂ x s₂ = .ok t₂ ∧ R t₁ t₂ := by
  unfold V3.ConnAck.encode at hrun ⊢
  simp only [] at hrun ⊢
  refine exceptBindSim (fun u e => putSimU8 h hR e) ?_ hrun
  intro u₁ u₂ hRu hrun
  exact putSimU8 h hRu hrun
/-- The simulation transfers across V3.Connect.encode. -/
theorem connectEncodeSimV3 {σ₁ σ₂ : Type} {R : σ₁ → σ₂ → Prop} {d₁ : ByteSink σ₁}
    {d₂ : ByteSink σ₂} (h : PutSim R d₁ d₂) (x : V3.Connect)
    {s₁ : σ₁} {s₂ : σ₂} {t₁ : σ₁} (hR : R s₁ s₂)
    (hrun : V3.Connect.encode d₁ x s₁ = .ok t₁) :
    ∃ t₂, V3.Connect.encode d₂ x s₂ = .ok t₂ ∧ R t₁ t₂ := by
  unfold V3.Connect.encode at hrun ⊢
  refine exceptBindSim (fun u e => putSimSlice h hR e) ?_ hrun
  intro a₁ a₂ hRa hrun
  simp only [] at hrun ⊢
  refine exceptBindSim (fun u e => putSimU8 h hRa e) ?_ hrun
  intro b₁ b₂ hRb hrun
  simp only [] at hrun ⊢
  refine exceptBindSim (fun u e => putSimU8 h hRb e) ?_ hrun
  intro c₁ c₂ hRc hrun
  simp only [] at hrun ⊢
  split at hrun
  · simp at hrun
  · rename_i hka
    rw [if_neg hka]
    refine exceptBindSim (fun u e => putSimU16 h hRc e) ?_ hrun
    intro dd₁ dd₂ hRd hrun
    simp only [] at hrun ⊢
    refine exceptBindSim (fun u e => clientIdSim h x.client_id hRd e) ?_ hrun
    intro f₁ f₂ hRf hrun
    simp only [] at hrun ⊢
    refine exceptBindSim ?_ ?_ hrun
    · intro g₁ ew
      revert ew
      cases hw : x.will with
      | none =>
        intro ew
        simp only [] at ew
        exact ⟨f₂, rfl, by cases ew; exact hRf⟩
      | some will =>
        intro ew
        simp only [] at ew ⊢
        refine exceptBindSim (fun u e => putSimStr h hRf e) ?_ ew
        intro w₁ w₂ hRw ew
        split at ew
        · simp at ew
        · rename_i hwp
          rw [if_neg hwp]
          refine exceptBindSim (fun u e => putSimU16 h hRw e) ?_ ew
          intro z₁ z₂ hRz ew
          exact putSimBytes h hRz ew
    · intro g₁ g₂ hRg hrun
      simp only [] at hrun ⊢
      refine exceptBindSim (fun u e => optStrSim h x.username hRg e) ?_ hrun
      intro m₁ m₂ hRm hrun
      exact optStrSim h x.password hRm hrun
/-- The simulation transfers across V3.Publish.encode. -/
theorem publishEncodeSimV3 {σ₁ σ₂ : Type} {R : σ₁ → σ₂ → Prop} {d₁ : ByteSink σ₁}
    {d₂ : ByteSink σ₂} (h : PutSim R d₁ d₂) (x : V3.Publish)
    {s₁ : σ₁} {s₂ : σ₂} {t₁ : σ₁} (hR : R s₁ s₂)
    (hrun : V3.Publish.encode d₁ x s₁ = .ok t₁) :
    ∃ t₂, V3.Publish.encode d₂ x s₂ = .ok t₂ ∧ R t₁ t₂ := by
  unfold V3.Publish.encode at hrun ⊢
  refine exceptBindSim (fun u e => putSimStr h hR e) ?_ hrun
  intro a₁ a₂ hRa hrun
  simp only [] at hrun ⊢
  refine exceptBindSim ?_ ?_ hrun
  · intro u₁ ep
    revert ep
    cases hq : x.packet_identifier_dup_qos with
    | atMostOnce =>
      intro ep
      simp only [] at ep
      exact ⟨a₂, rfl, by cases ep; exact hRa⟩
    | atLeastOnce pid dup =>
      intro ep
      simp only [] at ep
      exact putSimPid h hRa ep
    | exactlyOnce pid dup =>
      intro ep
      simp only [] at ep
      exact putSimPid h hRa ep
  · intro b₁ b₂ hRb hrun
    exact putSimBytes h hRb hrun
/-- The simulation transfers across V3.SubAck.encode. -/
theorem subAckEncodeSimV3 {σ₁ σ₂ : Type} {R : σ₁ → σ₂ → Prop} {d₁ : ByteSink σ₁}
    {d₂ : ByteSink σ₂} (h : PutSim R d₁ d₂) (x : V3.SubAck)
    {s₁ : σ₁} {s₂ : σ₂} {t₁ : σ₁} (hR : R s₁ s₂)
    (hrun : V3.SubAck.encode d₁ x s₁ = .ok t₁) :
    ∃ t₂, V3.SubAck.encode d₂ x s₂ = .ok t₂ ∧ R t₁ t₂ := by
  unfold V3.SubAck.encode at hrun ⊢
  refine exceptBindSim (fun u e => putSimPid h hR e) ?_ hrun
  intro a₁ a₂ hRa hrun
  refine encodeEachSim ?_ x.qos a₁ a₂ t₁ hRa hrun
  intro q u₁ u₂ v₁ hRu e
  exact putSimU8 h hRu e
/-- The simulation transfers across V3.Subscribe.encode. -/
theorem subscribeEncodeSimV3 {σ₁ σ₂ : Type} {R : σ₁ → σ₂ → Prop} {d₁ : ByteSink σ₁}
    {d₂ : ByteSink σ₂} (h : PutSim R d₁ d₂) (x : V3.Subscribe)
    {s₁ : σ₁} {s₂ : σ₂} {t₁ : σ₁} (hR : R s₁ s₂)
    (hrun : V3.Subscribe.encode d₁ x s₁ = .ok t₁) :
    ∃ t₂, V3.Subscribe.encode d₂ x s₂ = .ok t₂ ∧ R t₁ t₂ := by
  unfold V3.Subscribe.encode at hrun ⊢
  refine exceptBindSim (fun u e => putSimPid h hR e) ?_ hrun
  intro a₁ a₂ hRa hrun
  refine encodeEachSim ?_ x.subscribe_to a₁ a₂ t₁ hRa hrun
  intro st u₁ u₂ v₁ hRu e
  simp only [] at e ⊢
  refine exceptBindSim (fun u eb => putSimStr h hRu eb) ?_ e
  intro w₁ w₂ hRw e
  exact putSimU8 h hRw e
/-- The simulation transfers across V3.Unsubscribe.encode. -/
theorem unsubscribeEncodeSimV3 {σ₁ σ₂ : Type} {R : σ₁ → σ₂ → Prop} {d₁ : ByteSink σ₁}
    {d₂ : ByteSink σ₂} (h : PutSim R d₁ d₂) (x : V3.Unsubscribe)
    {s₁ : σ₁} {s₂ : σ₂} {t₁ : σ₁} (hR : R s₁ s₂)
    (hrun : V3.Unsubscribe.encode d₁ x s₁ = .ok t₁) :
    ∃ t₂, V3.Unsubscribe.encode d₂ x s₂ = .ok t₂ ∧ R t₁ t₂ := by
  unfold V3.Unsubscribe.encode at hrun ⊢
  refine exceptBindSim (fun u e => putSimPid h hR e) ?_ hrun
  intro a₁ a₂ hRa hrun
  refine encodeEachSim ?_ x.unsubscribe_from a₁ a₂ t₁ hRa hrun
  intro uf u₁ u₂ v₁ hRu e
  exact putSimStr h hRu e
/-- The simulation transfers across the v5 body-encoder dispatch. -/
theorem encodeBodySimV5 {σ₁ σ₂ : Type} {R : σ₁ → σ₂ → Prop} {d₁ : ByteSink σ₁}
    {d₂ : ByteSink σ₂} (h : PutSim R d₁ d₂) (p : V5.Packet)
    {s₁ : σ₁} {s₂ : σ₂} {t₁ : σ₁} (hR : R s₁ s₂)
    (hrun : V5.encodeBody d₁ p s₁ = .ok t₁) :
    ∃ t₂, V5.encodeBody d₂ p s₂ = .ok t₂ ∧ R t₁ t₂ := by
  cases p with
  | auth y =>
    simp only [V5.encodeBody] at hrun ⊢
    exact authEncodeSim h y hR hrun
  | connAck y =>
    simp only [V5.encodeBody] at hrun ⊢
    exact connAckEncodeSimV5 h y hR hrun
  | connect y =>
    simp only [V5.encodeBody] at hrun ⊢
    exact connectEncodeSimV5 h y hR hrun
  | disconnect y =>
    simp only [V5.encodeBody] at hrun ⊢
    exact disconnectEncodeSim h y hR hrun
  | pingReq =>
    simp only [V5.encodeBody] at hrun ⊢
    exact ⟨s₂, rfl, by cases hrun; exact hR⟩
  | pingResp =>
    simp only [V5.encodeBody] at hrun ⊢
    exact ⟨s₂, rfl, by cases hrun; exact hR⟩
  | pubAck y =>
    simp only [V5.encodeBody] at hrun ⊢
    exact pubAckEncodeSim h y hR hrun
  | pubComp y =>
    simp only [V5.encodeBody] at hrun ⊢
    exact pubCompEncodeSim h y hR hrun
  | publish y =>
    simp only [V5.encodeBody] at hrun ⊢
    exact publishEncodeSimV5 h y hR hrun
  | pubRec y =>
    simp only [V5.encodeBody] at hrun ⊢
    exact pubRecEncodeSim h y hR hrun
  | pubRel y =>
    simp only [V5.encodeBody] at hrun ⊢
    exact pubRelEncodeSim h y hR hrun
  | subAck y =>
    simp only [V5.encodeBody] at hrun ⊢
    exact subAckEncodeSimV5 h y hR hrun
  | subscribe y =>
    simp only [V5.encodeBody] at hrun ⊢
    exact subscribeEncodeSimV5 h y hR hrun
  | unsubAck y =>
    simp only [V5.encodeBody] at hrun ⊢
    exact unsubAckEncodeSim h y hR hrun
  | unsubscribe y =>
    simp only [V5.encodeBody] at hrun ⊢
    exact unsubscribeEncodeSimV5 h y hR hrun
/-- The simulation transfers across the v3 body-encoder dispatch. -/
theorem encodeBodySimV3 {σ₁ σ₂ : Type} {R : σ₁ → σ₂ → Prop} {d₁ : ByteSink σ₁}
    {d₂ : ByteSink σ₂} (h : PutSim R d₁ d₂) (p : V3.Packet)
    {s₁ : σ₁} {s₂ : σ₂} {t₁ : σ₁} (hR : R s₁ s₂)
    (hrun : V3.encodeBody d₁ p s₁ = .ok t₁) :
    ∃ t₂, V3.encodeBody d₂ p s₂ = .ok t₂ ∧ R t₁ t₂ := by
  cases p with
  | connAck y =>
    simp only [V3.encodeBody] at hrun ⊢
    exact connAckEncodeSimV3 h y hR hrun
  | connect y =>
    simp only [V3.encodeBody] at hrun ⊢
    exact connectEncodeSimV3 h y hR hrun
  | disconnect =>
    simp only [V3.encodeBody] at hrun ⊢
    exact ⟨s₂, rfl, by cases hrun; exact hR⟩
  | pingReq =>
    simp only [V3.encodeBody] at hrun ⊢
    exact ⟨s₂, rfl, by cases hrun; exact hR⟩
  | pingResp =>
    simp only [V3.encodeBody] at hrun ⊢
    exact ⟨s₂, rfl, by cases hrun; exact hR⟩
  | pubAck pid =>
    simp only [V3.encodeBody] at hrun ⊢
    exact putSimPid h hR hrun
  | pubComp pid =>
    simp only [V3.encodeBody] at hrun ⊢
    exact putSimPid h hR hrun
  | publish y =>
    simp only [V3.encodeBody] at hrun ⊢
    exact publishEncodeSimV3 h y hR hrun
  | pubRec pid =>
    simp only [V3.encodeBody] at hrun ⊢
    exact putSimPid h hR hrun
  | pubRel pid =>
    simp only [V3.encodeBody] at hrun ⊢
    exact putSimPid h hR hrun
  | subAck y =>
    simp only [V3.encodeBody] at hrun ⊢
    exact subAckEncodeSimV3 h y hR hrun
  | subscribe y =>
    simp only [V3.encodeBody] at hrun ⊢
    exact subscribeEncodeSimV3 h y hR hrun
  | unsubAck pid =>
    simp only [V3.encodeBody] at hrun ⊢
    exact putSimPid h hR hrun
  | unsubscribe y =>
    simp only [V3.encodeBody] at hrun ⊢
    exact unsubscribeEncodeSimV3 h y hR hrun
/-- The Owned write pass simulates into the ByteCounter pass: alignment of
filled length with the running count is preserved by every put. -/
theorem ownedCounterPutSim (base : Nat) : PutSim (lenRel base) ownedSink counterSink := by
  intro s₁ s₂ bs t₁ hR e
  have e₂ : (if bs.length ≤ s₁.unfilled then
      (.ok ⟨s₁.filled ++ bs, s₁.unfilled - bs.length⟩ : Except EncodeError Owned)
    else .error .insufficientBuffer) = .ok t₁ := e
  split at e₂
  · cases e₂
    refine ⟨s₂ + bs.length, rfl, ?_⟩
    simp only [lenRel, List.length_append] at hR ⊢
    omega
  · simp at e₂

/-- C9: for every v5 or v3 packet whose body encoding succeeds against a
real writable view, running the same body encoder against the ByteCounter
sink succeeds and yields exactly the number of bytes the real run appended
to the view's filled region; this counter value is what encode passes to
encode_remaining_length, so the remaining-length value of the fixed header
equals the actual body length. -/
theorem byte_counter_matches_bytes_written :
    (∀ (p : V5.Packet) (o t : Owned), V5.encodeBody ownedSink p o = .ok t →
      o.filled.length ≤ t.filled.length ∧
      V5.encodeBody counterSink p 0 = .ok (t.filled.length - o.filled.length)) ∧
    (∀ (p : V3.Packet) (o t : Owned), V3.encodeBody ownedSink p o = .ok t →
      o.filled.length ≤ t.filled.length ∧
      V3.encodeBody counterSink p 0 = .ok (t.filled.length - o.filled.length)) := by
  constructor
  · intro p o t hrun
    obtain ⟨n, e, hl⟩ := encodeBodySimV5 (ownedCounterPutSim o.filled.length) p
      (show lenRel o.filled.length o 0 by simp [lenRel]) hrun
    unfold lenRel at hl
    refine ⟨by omega, ?_⟩
    rw [e, show t.filled.length - o.filled.length = n by omega]
  · intro p o t hrun
    obtain ⟨n, e, hl⟩ := encodeBodySimV3 (ownedCounterPutSim o.filled.length) p
      (show lenRel o.filled.length o 0 by simp [lenRel]) hrun
    unfold lenRel at hl
    refine ⟨by omega, ?_⟩
    rw [e, show t.filled.length - o.filled.length = n by omega]

/-- Witness for byte_counter_matches_bytes_written: both conjuncts applied
to a PUBACK with packet identifier 1 (body bytes 00 01) written into an
empty four-byte view. -/
theorem byte_counter_matches_bytes_written_witness :
    ((Owned.mk [] 4).filled.length ≤ (Owned.mk [0, 1] 2).filled.length ∧
      V5.encodeBody counterSink (V5.Packet.pubAck ⟨⟨1⟩, .success, none, []⟩) 0 =
        .ok ((Owned.mk [0, 1] 2).filled.length - (Owned.mk [] 4).filled.length)) ∧
    ((Owned.mk [] 4).filled.length ≤ (Owned.mk [0, 1] 2).filled.length ∧
      V3.encodeBody counterSink (V3.Packet.pubAck ⟨1⟩) 0 =
        .ok ((Owned.mk [0, 1] 2).filled.length - (Owned.mk [] 4).filled.length)) :=
  ⟨byte_counter_matches_bytes_written.1
      (V5.Packet.pubAck ⟨⟨1⟩, .success, none, []⟩) ⟨[], 4⟩ ⟨[0, 1], 2⟩ rfl,
    byte_counter_matches_bytes_written.2 (V3.Packet.pubAck ⟨1⟩) ⟨[], 4⟩ ⟨[0, 1], 2⟩ rfl⟩

end Mqtt
